import Mathlib

/-!
# Recorder core of `recorder-mac`: event monitor and accessibility element description

A shallow embedding of `event_monitor.{h,cpp}`, `ax_element.{h,cpp}` and the step
queue of `ax_recorder.cpp`.

* Pointers are `Option` of a numeric handle; `none` is the null pointer.
* Calls into CoreGraphics / ApplicationServices are answered by an explicit
  record of answers (`TapOS` for listener registration, `World` for the
  accessibility tree, the front process and the clock).
* Calls that act on the operating system are written to a log (`OSCall` for the
  listener lifecycle, `Query` for accessibility and front-process reads).
* `while (current)` in `getAncestryPath` has no bound in the source; the
  embedding gives it fuel and answers `none` when the fuel is used up. A handler
  whose walk is out of fuel is `Completion.running`: it has not returned.
* A `CGFloat` is a finite double, kept exactly as `mant / 2 ^ exp`.
-/

namespace Recorder

/-! ## Handles -/

/-- Address held by a non-null `CFTypeRef`. -/
abbrev CFTypeRef := Nat
/-- An accessibility node reference is a `CFTypeRef`. -/
abbrev AXUIElementRef := CFTypeRef
abbrev CFMachPortRef := Nat
abbrev CFRunLoopRef := Nat
abbrev CFRunLoopSourceRef := Nat

/-! ## Data model of `event_monitor.h` -/

structure AXPoint where
  x : Int
  y : Int
  deriving DecidableEq

structure Frame where
  x : Int
  y : Int
  width : Int
  height : Int
  deriving DecidableEq

structure Modifiers where
  shift : Bool := false
  control : Bool := false
  option : Bool := false
  command : Bool := false
  deriving DecidableEq

structure ApplicationInfo where
  name : String
  processId : Int
  deriving DecidableEq

structure TargetDescriptor where
  role : String
  title : String
  identifier : String
  value : String
  frame : Frame
  ancestry : List String
  deriving DecidableEq

structure RecordedStep where
  timestamp : Int
  sessionId : String
  action : String
  button : String
  text : String
  location : AXPoint
  modifiers : Modifiers
  targetDescriptor : TargetDescriptor
  appInfo : ApplicationInfo
  deriving DecidableEq

/-- Identity of the function object stored in `stepCallback`. -/
abbrev StepCallback := Nat

/-- Fields of `class EventMonitor`; `stepCallback = none` is the empty `std::function`. -/
structure EventMonitor where
  isRecording : Bool
  sessionId : String
  mouseEventTap : Option CFMachPortRef
  keyEventTap : Option CFMachPortRef
  runLoop : Option CFRunLoopRef
  mouseRunLoopSource : Option CFRunLoopSourceRef
  keyRunLoopSource : Option CFRunLoopSourceRef
  stepCallback : Option StepCallback
  deriving DecidableEq

/-! ## Listener lifecycle (`startRecording`, `stopRecording`) -/

/-- Which of the two event taps a call concerns. -/
inductive TapKind where
  | mouse
  | key
  deriving DecidableEq

/-- Calls made on the operating system by `startRecording` and `stopRecording`. -/
inductive OSCall where
  | tapCreate (kind : TapKind)
  | createRunLoopSource (port : CFMachPortRef)
  | runLoopGetCurrent
  | runLoopAddSource (rl : Option CFRunLoopRef) (src : Option CFRunLoopSourceRef)
  | runLoopRemoveSource (rl : Option CFRunLoopRef) (src : CFRunLoopSourceRef)
  | tapEnable (port : CFMachPortRef) (enable : Bool)
  | release (h : Nat)
  deriving DecidableEq

/-- Answers of the operating system to the calls of one `startRecording`. -/
structure TapOS where
  /-- Answer of `CGEventTapCreate` with the pointer-event mask -/
  mouseTapCreate : Option CFMachPortRef
  /-- Answer of `CGEventTapCreate` with the keyboard-event mask -/
  keyTapCreate : Option CFMachPortRef
  /-- Answer of `CFMachPortCreateRunLoopSource` -/
  createRunLoopSource : CFMachPortRef → Option CFRunLoopSourceRef
  /-- Answer of `CFRunLoopGetCurrent` -/
  runLoopGetCurrent : Option CFRunLoopRef

/-- Embeds `EventMonitor::EventMonitor()`. -/
def EventMonitor.new : EventMonitor :=
  { isRecording := false
    sessionId := ""
    mouseEventTap := none
    keyEventTap := none
    runLoop := none
    mouseRunLoopSource := none
    keyRunLoopSource := none
    stepCallback := none }

/-- Embeds `EventMonitor::isRecordingActive`. -/
def isRecordingActive (m : EventMonitor) : Bool := m.isRecording

/-- Embeds `EventMonitor::setStepCallback`. -/
def setStepCallback (m : EventMonitor) (callback : Option StepCallback) : EventMonitor :=
  { m with stepCallback := callback }

/-- Embeds `EventMonitor::stopRecording`: the new fields and the OS calls made, in order. -/
def stopRecording (m : EventMonitor) : EventMonitor × List OSCall :=
  if !m.isRecording then
    (m, [])
  else
    let m1 := { m with isRecording := false }
    let (m2, l2) : EventMonitor × List OSCall :=
      match m1.mouseEventTap with
      | some t => ({ m1 with mouseEventTap := none }, [OSCall.tapEnable t false, OSCall.release t])
      | none => (m1, [])
    let (m3, l3) : EventMonitor × List OSCall :=
      match m2.keyEventTap with
      | some t => ({ m2 with keyEventTap := none }, [OSCall.tapEnable t false, OSCall.release t])
      | none => (m2, [])
    let (m4, l4) : EventMonitor × List OSCall :=
      match m3.mouseRunLoopSource with
      | some s =>
        ({ m3 with mouseRunLoopSource := none },
          [OSCall.runLoopRemoveSource m3.runLoop s, OSCall.release s])
      | none => (m3, [])
    let (m5, l5) : EventMonitor × List OSCall :=
      match m4.keyRunLoopSource with
      | some s =>
        ({ m4 with keyRunLoopSource := none },
          [OSCall.runLoopRemoveSource m4.runLoop s, OSCall.release s])
      | none => (m4, [])
    ({ m5 with runLoop := none }, l2 ++ l3 ++ l4 ++ l5)

/-- Result of `startRecording`: the returned flag, the new fields, the OS calls made. -/
structure StartResult where
  ok : Bool
  monitor : EventMonitor
  calls : List OSCall
  deriving DecidableEq

/-- Embeds `EventMonitor::startRecording`. -/
def startRecording (m : EventMonitor) (sessionId : String) (os : TapOS) : StartResult :=
  if m.isRecording then
    { ok := false, monitor := m, calls := [] }
  else
    let m1 := { m with sessionId := sessionId }
    let m2 := { m1 with mouseEventTap := os.mouseTapCreate }
    let m3 := { m2 with keyEventTap := os.keyTapCreate }
    let created := [OSCall.tapCreate TapKind.mouse, OSCall.tapCreate TapKind.key]
    match m3.mouseEventTap, m3.keyEventTap with
    | some mt, some kt =>
      let m4 := { m3 with mouseRunLoopSource := os.createRunLoopSource mt }
      let m5 := { m4 with keyRunLoopSource := os.createRunLoopSource kt }
      let m6 := { m5 with runLoop := os.runLoopGetCurrent }
      { ok := true
        monitor := { m6 with isRecording := true }
        calls := created ++
          [OSCall.createRunLoopSource mt, OSCall.createRunLoopSource kt,
           OSCall.runLoopGetCurrent,
           OSCall.runLoopAddSource m6.runLoop m6.mouseRunLoopSource,
           OSCall.runLoopAddSource m6.runLoop m6.keyRunLoopSource,
           OSCall.tapEnable mt true, OSCall.tapEnable kt true] }
    | _, _ =>
      let r := stopRecording m3
      { ok := false, monitor := r.1, calls := created ++ r.2 }

/-- One call of the control interface. -/
inductive Call where
  | start (sessionId : String) (os : TapOS)
  | stop

/-- Apply one control call to the monitor. -/
def applyCall (m : EventMonitor) : Call → EventMonitor
  | Call.start sid os => (startRecording m sid os).monitor
  | Call.stop => (stopRecording m).1

/-- Apply a sequence of control calls, first call first. -/
def runCalls (m : EventMonitor) (calls : List Call) : EventMonitor :=
  calls.foldl applyCall m

/-- Both listener registrations of the call succeed (vacuous for `stop`). -/
def Call.registrationOk : Call → Bool
  | Call.start _ os => os.mouseTapCreate.isSome && os.keyTapCreate.isSome
  | Call.stop => true

/-- The call is a `startRecording`. -/
def Call.isStart : Call → Bool
  | Call.start _ _ => true
  | Call.stop => false

/-- The last call of the sequence is a `startRecording`. -/
def lastIsStart (calls : List Call) : Bool :=
  match calls.getLast? with
  | some c => c.isStart
  | none => false

/-! ## CoreGraphics values -/

/-- A finite `double` (`CGFloat`): the number `mant / 2 ^ exp`. Every finite double
has this form; NaN and the infinities are not represented. -/
structure CGFloat where
  mant : Int
  exp : Nat
  deriving DecidableEq

/-- The double holding the integer `i`. -/
def CGFloat.ofInt (i : Int) : CGFloat := { mant := i, exp := 0 }

/-- Embeds `static_cast<int>` applied to a `CGFloat`: the fractional part is discarded (rounding
toward zero). The value is taken to fit in `int`, as screen coordinates do. -/
def CGFloat.toInt (v : CGFloat) : Int := Int.tdiv v.mant (2 ^ v.exp)

/-- The double `v` is the integer `i`. -/
def CGFloat.isInt (v : CGFloat) (i : Int) : Prop := v.mant = i * 2 ^ v.exp

instance (v : CGFloat) (i : Int) : Decidable (v.isInt i) := by
  unfold CGFloat.isInt
  infer_instance

structure CGPoint where
  x : CGFloat
  y : CGFloat
  deriving DecidableEq

structure CGSize where
  width : CGFloat
  height : CGFloat
  deriving DecidableEq

structure CGRect where
  origin : CGPoint
  size : CGSize
  deriving DecidableEq

/-- The constant `CGRectZero`. -/
def CGRectZero : CGRect :=
  { origin := { x := CGFloat.ofInt 0, y := CGFloat.ofInt 0 }
    size := { width := CGFloat.ofInt 0, height := CGFloat.ofInt 0 } }

/-- Embeds `CGRectMake`. -/
def CGRectMake (x y width height : CGFloat) : CGRect :=
  { origin := { x := x, y := y }, size := { width := width, height := height } }

/-- The type `CGEventType` is a 32-bit code; the values are those of `CGEventTypes.h`. -/
abbrev CGEventType := Nat

def kCGEventLeftMouseDown : CGEventType := 1
def kCGEventLeftMouseUp : CGEventType := 2
def kCGEventRightMouseDown : CGEventType := 3
def kCGEventRightMouseUp : CGEventType := 4
def kCGEventMouseMoved : CGEventType := 5
def kCGEventLeftMouseDragged : CGEventType := 6
def kCGEventRightMouseDragged : CGEventType := 7
def kCGEventKeyDown : CGEventType := 10
def kCGEventKeyUp : CGEventType := 11
def kCGEventFlagsChanged : CGEventType := 12

/-- The type `CGEventFlags` is a 64-bit mask; the values are those of `CGEventTypes.h`. -/
abbrev CGEventFlags := Nat

def kCGEventFlagMaskShift : CGEventFlags := 0x20000
def kCGEventFlagMaskControl : CGEventFlags := 0x40000
def kCGEventFlagMaskAlternate : CGEventFlags := 0x80000
def kCGEventFlagMaskCommand : CGEventFlags := 0x100000

/-- A UTF-16 code unit. -/
abbrev UniChar := Nat

/-- What the handlers read from the event behind a `CGEventRef`. -/
structure CGEvent where
  /-- Answer of `CGEventGetLocation` -/
  location : CGPoint
  /-- Answer of `CGEventGetFlags` -/
  flags : CGEventFlags
  /-- Answer of `CGEventGetIntegerValueField(event, kCGKeyboardEventKeycode)` -/
  keycode : Int
  /-- Answer of `CGEventKeyboardGetUnicodeString` with room for four units: the units
  written; their number is `actualStringLength` -/
  unicodeString : List UniChar
  deriving DecidableEq

/-- A `CGEventRef`; `none` is the null pointer. -/
abbrev CGEventRef := Option CGEvent

/-! ## Accessibility service -/

abbrev AXError := Int

def kAXErrorSuccess : AXError := 0

/-- The attribute names used by the recorder (`kAX…Attribute`). -/
inductive AXAttribute where
  | role
  | title
  | identifier
  | value
  | parent
  | position
  | size
  | focusedApplication
  | focusedUIElement
  deriving DecidableEq

/-- What the two UTF-8 decoders answer for one `CFStringRef`. -/
structure CFStringData where
  /-- Answer of `CFStringGetCStringPtr(str, kCFStringEncodingUTF8)`: the text behind the
  pointer, `none` for a null pointer -/
  cStringPtr : Option String
  /-- Answer of `CFStringGetCString` into a buffer of the maximum size: the buffer on
  success, `none` on failure -/
  getCString : Option String
  deriving DecidableEq

/-- Members of a default-initialised `RecordedStep` that have no initialiser
hold whatever was in memory; these are the values found there. -/
structure Indeterminate where
  timestamp : Int
  location : AXPoint
  frame : Frame
  processId : Int
  deriving DecidableEq

/-- Answers of the operating system during one event callback. -/
structure World where
  /-- Answer of `system_clock::now()` in milliseconds since the epoch -/
  now : Int
  /-- Answer of `AXUIElementCreateSystemWide` -/
  createSystemWide : Option AXUIElementRef
  /-- Answer of `AXUIElementCopyElementAtPosition` -/
  copyElementAtPosition : AXUIElementRef → CGPoint → AXError × Option AXUIElementRef
  /-- Answer of `AXUIElementCopyAttributeValue` -/
  copyAttributeValue : AXUIElementRef → AXAttribute → AXError × Option CFTypeRef
  /-- the string behind a value whose `CFGetTypeID` is `CFStringGetTypeID`;
  `none` for a value of another type -/
  stringData : CFTypeRef → Option CFStringData
  /-- Answer of `AXValueGetValue(v, kAXValueTypeCGPoint, _)`: the point on success -/
  axValueCGPoint : CFTypeRef → Option CGPoint
  /-- Answer of `AXValueGetValue(v, kAXValueTypeCGSize, _)`: the size on success -/
  axValueCGSize : CFTypeRef → Option CGSize
  /-- Answer of `CFStringCreateWithCharacters` -/
  createWithCharacters : List UniChar → Option CFStringData
  /-- Answer of `CopyProcessName` of the front process -/
  frontProcessName : Option CFStringData
  /-- Answer of `GetProcessPID` of the front process -/
  frontProcessPID : Int
  /-- memory found in a fresh `RecordedStep` -/
  uninit : Indeterminate

/-- Reads of the accessibility service and of the front process. -/
inductive Query where
  | createSystemWide
  | copyElementAtPosition (root : AXUIElementRef) (point : CGPoint)
  | copyAttributeValue (elem : AXUIElementRef) (attr : AXAttribute)
  | getFrontProcess
  | copyProcessName
  | getProcessPID
  deriving DecidableEq

/-- The decoding block shared by every string read: the zero-copy pointer when
there is one, else the buffer when `CFStringGetCString` succeeds, else empty. -/
def decodeCFString (d : CFStringData) : String :=
  match d.cStringPtr with
  | some cStr => cStr
  | none =>
    match d.getCString with
    | some buffer => buffer
    | none => ""

/-- Embeds `AXElementInfo::getStringAttributeForElement`. -/
def getStringAttributeForElement (w : World) (elem : Option AXUIElementRef)
    (attr : AXAttribute) : String × List Query :=
  match elem with
  | none => ("", [])
  | some e =>
    let r := w.copyAttributeValue e attr
    let q := [Query.copyAttributeValue e attr]
    if r.1 ≠ kAXErrorSuccess then ("", q)
    else
      match r.2 with
      | none => ("", q)
      | some value =>
        match w.stringData value with
        | some str => (decodeCFString str, q)
        | none => ("", q)

/-- The object `AXElementInfo`: its one field. -/
structure AXElementInfo where
  element : Option AXUIElementRef
  deriving DecidableEq

/-- Embeds `AXElementInfo::AXElementInfo()`. -/
def AXElementInfo.new : AXElementInfo := { element := none }

/-- Embeds `AXElementInfo::setElement` (reference counting left out). -/
def AXElementInfo.setElement (_info : AXElementInfo) (elem : Option AXUIElementRef) :
    AXElementInfo :=
  { element := elem }

/-- Embeds `AXElementInfo::getStringAttribute`: the same body as
`getStringAttributeForElement`, on the member `element`. -/
def AXElementInfo.getStringAttribute (info : AXElementInfo) (w : World)
    (attr : AXAttribute) : String × List Query :=
  match info.element with
  | none => ("", [])
  | some e =>
    let r := w.copyAttributeValue e attr
    let q := [Query.copyAttributeValue e attr]
    if r.1 ≠ kAXErrorSuccess then ("", q)
    else
      match r.2 with
      | none => ("", q)
      | some value =>
        match w.stringData value with
        | some str => (decodeCFString str, q)
        | none => ("", q)

/-- Embeds `AXElementInfo::getFrame`. -/
def AXElementInfo.getFrame (info : AXElementInfo) (w : World) : CGRect × List Query :=
  match info.element with
  | none => (CGRectZero, [])
  | some e =>
    let pos := w.copyAttributeValue e AXAttribute.position
    let size := w.copyAttributeValue e AXAttribute.size
    let q := [Query.copyAttributeValue e AXAttribute.position,
              Query.copyAttributeValue e AXAttribute.size]
    if pos.1 = kAXErrorSuccess ∧ size.1 = kAXErrorSuccess then
      match pos.2, size.2 with
      | some positionValue, some sizeValue =>
        match w.axValueCGPoint positionValue, w.axValueCGSize sizeValue with
        | some position, some sz =>
          (CGRectMake position.x position.y sz.width sz.height, q)
        | _, _ => (CGRectZero, q)
      | _, _ => (CGRectZero, q)
    else (CGRectZero, q)

/-- The string `pathComponent` built in the body of the loop of
`getAncestryPath` from the three attributes read there. -/
def pathComponent (role title identifier : String) : String :=
  let pathComponent0 := role
  let pathComponent1 :=
    if title ≠ "" then pathComponent0 ++ ("[title=\"" ++ title ++ "\"]")
    else pathComponent0
  if identifier ≠ "" then pathComponent1 ++ ("[id=\"" ++ identifier ++ "\"]")
  else pathComponent1

/-- One round of the `while (current)` loop of `getAncestryPath`, then the rest
of the loop. The first component is the final `path`, or `none` when `fuel`
rounds were not enough; the second lists the reads made. -/
def ancestryLoop (w : World) : Nat → AXUIElementRef → List String →
    Option (List String) × List Query
  | 0, _, _ => (none, [])
  | fuel + 1, current, path =>
    let role := getStringAttributeForElement w (some current) AXAttribute.role
    let title := getStringAttributeForElement w (some current) AXAttribute.title
    let identifier := getStringAttributeForElement w (some current) AXAttribute.identifier
    let path1 := pathComponent role.1 title.1 identifier.1 :: path
    let parent := w.copyAttributeValue current AXAttribute.parent
    let q := role.2 ++ title.2 ++ identifier.2 ++
      [Query.copyAttributeValue current AXAttribute.parent]
    if parent.1 = kAXErrorSuccess then
      match parent.2 with
      | some parentValue =>
        let rest := ancestryLoop w fuel parentValue path1
        (rest.1, q ++ rest.2)
      | none => (some path1, q)
    else (some path1, q)

/-- Embeds `AXElementInfo::getAncestryPath`, the loop running for at most `fuel` rounds. -/
def AXElementInfo.getAncestryPath (info : AXElementInfo) (fuel : Nat) (w : World) :
    Option (List String) × List Query :=
  match info.element with
  | none => (some [], [])
  | some e => ancestryLoop w fuel e []

/-- Embeds `AXElementInfo::getElementAtPoint`. -/
def getElementAtPoint (w : World) (point : CGPoint) : Option AXUIElementRef × List Query :=
  match w.createSystemWide with
  | none => (none, [Query.createSystemWide])
  | some systemWideElement =>
    let r := w.copyElementAtPosition systemWideElement point
    let q := [Query.createSystemWide, Query.copyElementAtPosition systemWideElement point]
    if r.1 = kAXErrorSuccess then
      match r.2 with
      | some element => (some element, q)
      | none => (none, q)
    else (none, q)

/-! ## Event handlers (`handleMouseEvent`, `handleKeyEvent`) -/

/-- Embeds `EventMonitor::getFocusedElement`. -/
def getFocusedElement (w : World) : Option AXUIElementRef × List Query :=
  match w.createSystemWide with
  | none => (none, [Query.createSystemWide])
  | some systemWideElement =>
    let app := w.copyAttributeValue systemWideElement AXAttribute.focusedApplication
    let q1 := [Query.createSystemWide,
               Query.copyAttributeValue systemWideElement AXAttribute.focusedApplication]
    if app.1 ≠ kAXErrorSuccess then (none, q1)
    else
      match app.2 with
      | none => (none, q1)
      | some focusedApp =>
        let el := w.copyAttributeValue focusedApp AXAttribute.focusedUIElement
        let q2 := q1 ++ [Query.copyAttributeValue focusedApp AXAttribute.focusedUIElement]
        if el.1 = kAXErrorSuccess then
          match el.2 with
          | some focusedElement => (some focusedElement, q2)
          | none => (none, q2)
        else (none, q2)

/-- Embeds `EventMonitor::getCurrentApplication`. -/
def getCurrentApplication (w : World) : ApplicationInfo × List Query :=
  let name :=
    match w.frontProcessName with
    | some appName => decodeCFString appName
    | none => ""
  ({ name := name, processId := w.frontProcessPID },
    [Query.getFrontProcess, Query.copyProcessName, Query.getProcessPID])

/-- The object made by `RecordedStep step;`: strings and the ancestry vector are
empty, `Modifiers` takes its member initialisers, the other members are not
initialised. -/
def RecordedStep.uninit (u : Indeterminate) : RecordedStep :=
  { timestamp := u.timestamp
    sessionId := ""
    action := ""
    button := ""
    text := ""
    location := u.location
    modifiers := {}
    targetDescriptor :=
      { role := "", title := "", identifier := "", value := "", frame := u.frame, ancestry := [] }
    appInfo := { name := "", processId := u.processId } }

/-- The block guarded by `if (element)` / `if (focusedElement)` in the two
handlers: the descriptor read off a non-null element. `none` when the ancestry
walk did not finish within `fuel` rounds. -/
def describeTarget (fuel : Nat) (w : World) (element : AXUIElementRef) :
    Option TargetDescriptor × List Query :=
  let elementInfo := AXElementInfo.setElement AXElementInfo.new (some element)
  let role := elementInfo.getStringAttribute w AXAttribute.role
  let title := elementInfo.getStringAttribute w AXAttribute.title
  let identifier := elementInfo.getStringAttribute w AXAttribute.identifier
  let value := elementInfo.getStringAttribute w AXAttribute.value
  let ancestry := elementInfo.getAncestryPath fuel w
  match ancestry.1 with
  | none => (none, role.2 ++ title.2 ++ identifier.2 ++ value.2 ++ ancestry.2)
  | some path =>
    let frame := elementInfo.getFrame w
    (some
      { role := role.1
        title := title.1
        identifier := identifier.1
        value := value.1
        ancestry := path
        frame :=
          { x := frame.1.origin.x.toInt
            y := frame.1.origin.y.toInt
            width := frame.1.size.width.toInt
            height := frame.1.size.height.toInt } },
      role.2 ++ title.2 ++ identifier.2 ++ value.2 ++ ancestry.2 ++ frame.2)

/-- The descriptor of a step after the element block: untouched when the element
is null. -/
def resolveTarget (fuel : Nat) (w : World) (element : Option AXUIElementRef)
    (untouched : TargetDescriptor) : Option TargetDescriptor × List Query :=
  match element with
  | some e => describeTarget fuel w e
  | none => (some untouched, [])

/-- How far a handler got. -/
inductive Completion where
  /-- the handler is still inside the ancestry walk (fuel used up) -/
  | running
  /-- the handler returned this pointer to the event tap -/
  | returned (event : CGEventRef)
  deriving DecidableEq

/-- What one handler call did: how it ended, the steps passed to `stepCallback`
in order, the reads of the accessibility service and front process in order. -/
structure Outcome where
  completion : Completion
  invoked : List RecordedStep
  queries : List Query
  deriving DecidableEq

/-- The `switch (type)` of `handleMouseEvent`: the step with action and button
set, or `none` on the branches that `return event`. -/
def classifyMouse (type : CGEventType) (step : RecordedStep) : Option RecordedStep :=
  if type = kCGEventLeftMouseDown then
    some { step with action := "click", button := "left" }
  else if type = kCGEventRightMouseDown then
    some { step with action := "click", button := "right" }
  else if type = kCGEventLeftMouseUp ∨ type = kCGEventRightMouseUp then
    none
  else if type = kCGEventLeftMouseDragged ∨ type = kCGEventRightMouseDragged then
    some { step with
            action := "drag"
            button := if type = kCGEventLeftMouseDragged then "left" else "right" }
  else if type = kCGEventMouseMoved then
    none
  else
    none

/-- Embeds `EventMonitor::handleMouseEvent`. -/
def handleMouseEvent (fuel : Nat) (m : EventMonitor) (w : World) (type : CGEventType)
    (event : CGEvent) : Outcome :=
  if !m.isRecording || m.stepCallback.isNone then
    { completion := Completion.returned (some event), invoked := [], queries := [] }
  else
    let location := event.location
    let step0 := RecordedStep.uninit w.uninit
    let step1 := { step0 with timestamp := w.now }
    let step2 := { step1 with sessionId := m.sessionId }
    let element := getElementAtPoint w location
    let target := resolveTarget fuel w element.1 step2.targetDescriptor
    match target.1 with
    | none =>
      { completion := Completion.running, invoked := [], queries := element.2 ++ target.2 }
    | some td =>
      let step3 := { step2 with targetDescriptor := td }
      let step4 := { step3 with location := { x := location.x.toInt, y := location.y.toInt } }
      match classifyMouse type step4 with
      | none =>
        { completion := Completion.returned (some event)
          invoked := []
          queries := element.2 ++ target.2 }
      | some step5 =>
        let app := getCurrentApplication w
        let step6 := { step5 with appInfo := app.1 }
        { completion := Completion.returned (some event)
          invoked := [step6]
          queries := element.2 ++ target.2 ++ app.2 }

/-- The text block of `handleKeyEvent`: the UTF-8 form of the characters of the
key press, empty when there are none or a step of the decoding fails. -/
def keyText (w : World) (event : CGEvent) : String :=
  if 0 < event.unicodeString.length then
    match w.createWithCharacters event.unicodeString with
    | some stringRef => decodeCFString stringRef
    | none => ""
  else ""

/-- Embeds `EventMonitor::handleKeyEvent`. -/
def handleKeyEvent (fuel : Nat) (m : EventMonitor) (w : World) (type : CGEventType)
    (event : CGEvent) : Outcome :=
  if !m.isRecording || m.stepCallback.isNone then
    { completion := Completion.returned (some event), invoked := [], queries := [] }
  else if type ≠ kCGEventKeyDown then
    { completion := Completion.returned (some event), invoked := [], queries := [] }
  else
    let flags := event.flags
    let step0 := RecordedStep.uninit w.uninit
    let step1 := { step0 with timestamp := w.now }
    let step2 := { step1 with sessionId := m.sessionId }
    let step3 := { step2 with action := "type" }
    let step4 := { step3 with text := keyText w event }
    let step5 :=
      { step4 with
          modifiers :=
            { shift := (flags &&& kCGEventFlagMaskShift) != 0
              control := (flags &&& kCGEventFlagMaskControl) != 0
              option := (flags &&& kCGEventFlagMaskAlternate) != 0
              command := (flags &&& kCGEventFlagMaskCommand) != 0 } }
    let focusedElement := getFocusedElement w
    let target := resolveTarget fuel w focusedElement.1 step5.targetDescriptor
    match target.1 with
    | none =>
      { completion := Completion.running
        invoked := []
        queries := focusedElement.2 ++ target.2 }
    | some td =>
      let step6 := { step5 with targetDescriptor := td }
      let app := getCurrentApplication w
      let step7 := { step6 with appInfo := app.1 }
      { completion := Completion.returned (some event)
        invoked := [step7]
        queries := focusedElement.2 ++ target.2 ++ app.2 }

/-! ## Streams of events and the step sink -/

/-- One event as the operating system hands it to a tap callback, with the
answers the system gives during that callback. -/
structure Delivery where
  tap : TapKind
  type : CGEventType
  event : CGEvent
  world : World

/-- The pointer event types that are neither a left or right button-down nor a
left or right drag. -/
def discardedPointerType (type : CGEventType) : Prop :=
  type ≠ kCGEventLeftMouseDown ∧ type ≠ kCGEventRightMouseDown ∧
  type ≠ kCGEventLeftMouseDragged ∧ type ≠ kCGEventRightMouseDragged

/-- The delivery is of a discarded type: on the pointer tap anything but a
down or a drag, on the keyboard tap anything but a key-down. -/
def Delivery.discarded (d : Delivery) : Prop :=
  match d.tap with
  | TapKind.mouse => discardedPointerType d.type
  | TapKind.key => d.type ≠ kCGEventKeyDown

instance (type : CGEventType) : Decidable (discardedPointerType type) := by
  unfold discardedPointerType
  infer_instance

instance (d : Delivery) : Decidable d.discarded := by
  unfold Delivery.discarded
  split <;> infer_instance

/-- Embeds `mouseEventCallback` / `keyEventCallback`: forward to the handler of the tap. -/
def deliver (fuel : Nat) (m : EventMonitor) (d : Delivery) : Outcome :=
  match d.tap with
  | TapKind.mouse => handleMouseEvent fuel m d.world d.type d.event
  | TapKind.key => handleKeyEvent fuel m d.world d.type d.event

/-- The steps passed to `stepCallback` while a stream of events is delivered, in
order. A callback that does not return holds up the events after it. -/
def deliverAll (fuel : Nat) (m : EventMonitor) : List Delivery → List RecordedStep
  | [] => []
  | d :: ds =>
    match (deliver fuel m d).completion with
    | Completion.running => (deliver fuel m d).invoked
    | Completion.returned _ => (deliver fuel m d).invoked ++ deliverAll fuel m ds

/-- Embeds `AXRecorder::OnStepRecorded` on the queue `recordedSteps`, front of the queue first. -/
def OnStepRecorded (recordedSteps : List RecordedStep) (step : RecordedStep) :
    List RecordedStep :=
  recordedSteps ++ [step]

/-- The queue after the callback bound by `AXRecorder::AXRecorder` received the steps. -/
def pushAll (recordedSteps : List RecordedStep) (steps : List RecordedStep) :
    List RecordedStep :=
  steps.foldl OnStepRecorded recordedSteps

/-- A JavaScript value as the recorder builds it. A number is an integer here:
every `int` and every millisecond timestamp below `2 ^ 53` is a double exactly. -/
inductive JSValue where
  | number (n : Int)
  | string (s : String)
  | boolean (b : Bool)
  | array (items : List JSValue)
  | object (fields : List (String × JSValue))

/-- Embeds `AXRecorder::RecordedStepToJS`: the fields in the order of the `Set`
calls; `button` and `text` are set only when not empty. -/
def RecordedStepToJS (step : RecordedStep) : JSValue :=
  let head : List (String × JSValue) :=
    [("timestamp", JSValue.number step.timestamp),
     ("sessionId", JSValue.string step.sessionId),
     ("action", JSValue.string step.action)]
  let button : List (String × JSValue) :=
    if step.button ≠ "" then [("button", JSValue.string step.button)] else []
  let text : List (String × JSValue) :=
    if step.text ≠ "" then [("text", JSValue.string step.text)] else []
  let location := JSValue.object
    [("x", JSValue.number step.location.x), ("y", JSValue.number step.location.y)]
  let modifiers := JSValue.object
    [("shift", JSValue.boolean step.modifiers.shift),
     ("control", JSValue.boolean step.modifiers.control),
     ("option", JSValue.boolean step.modifiers.option),
     ("command", JSValue.boolean step.modifiers.command)]
  let frame := JSValue.object
    [("x", JSValue.number step.targetDescriptor.frame.x),
     ("y", JSValue.number step.targetDescriptor.frame.y),
     ("width", JSValue.number step.targetDescriptor.frame.width),
     ("height", JSValue.number step.targetDescriptor.frame.height)]
  let target := JSValue.object
    [("role", JSValue.string step.targetDescriptor.role),
     ("title", JSValue.string step.targetDescriptor.title),
     ("identifier", JSValue.string step.targetDescriptor.identifier),
     ("value", JSValue.string step.targetDescriptor.value),
     ("frame", frame),
     ("ancestry", JSValue.array (step.targetDescriptor.ancestry.map JSValue.string))]
  let appInfo := JSValue.object
    [("name", JSValue.string step.appInfo.name),
     ("processId", JSValue.number step.appInfo.processId)]
  JSValue.object
    (head ++ button ++ text ++
      [("location", location), ("modifiers", modifiers), ("targetDescriptor", target),
       ("appInfo", appInfo)])

/-- The loop `while (!tempQueue.empty())` of `GetRecordedSteps`: the front of the
copy is converted and stored at the next index, then popped. -/
def drainCopy : List RecordedStep → List JSValue → List JSValue
  | [], steps => steps
  | front :: tempQueue, steps => drainCopy tempQueue (steps ++ [RecordedStepToJS front])

/-- Embeds `AXRecorder::GetRecordedSteps`: the returned array and the queue afterwards. -/
def GetRecordedSteps (recordedSteps : List RecordedStep) : JSValue × List RecordedStep :=
  let tempQueue := recordedSteps
  (JSValue.array (drainCopy tempQueue []), recordedSteps)

/-- Embeds `AXRecorder::ClearSteps`: the returned value and the queue afterwards. -/
def ClearSteps (_recordedSteps : List RecordedStep) : JSValue × List RecordedStep :=
  let emptyQueue : List RecordedStep := []
  (JSValue.boolean true, emptyQueue)

/-- One operation on the step sink. -/
inductive SinkOp where
  | push (step : RecordedStep)
  | snapshot
  | clear

/-- The queue after one operation. -/
def applySinkOp (recordedSteps : List RecordedStep) : SinkOp → List RecordedStep
  | SinkOp.push step => OnStepRecorded recordedSteps step
  | SinkOp.snapshot => (GetRecordedSteps recordedSteps).2
  | SinkOp.clear => (ClearSteps recordedSteps).2

/-- The queue after a sequence of operations, first operation first. -/
def runSink (recordedSteps : List RecordedStep) (ops : List SinkOp) : List RecordedStep :=
  ops.foldl applySinkOp recordedSteps

/-- The operation is a clear. -/
def SinkOp.isClear : SinkOp → Bool
  | SinkOp.clear => true
  | _ => false

/-- The step of a push, nothing for the other operations. -/
def SinkOp.pushed? : SinkOp → Option RecordedStep
  | SinkOp.push step => some step
  | _ => none

/-- The steps pushed since the last clear, in push order, read off the sequence
of operations: the operations after the last clear, of those the pushes. -/
def pushedSinceClear (ops : List SinkOp) : List RecordedStep :=
  ((ops.reverse.takeWhile (fun op => !op.isClear)).reverse).filterMap SinkOp.pushed?

/-! ## Sessions: control calls interleaved with events -/

/-- One thing that happens to the monitor. -/
inductive Action where
  | start (sessionId : String) (os : TapOS)
  | stop
  | setCallback (callback : Option StepCallback)
  | event (fuel : Nat) (d : Delivery)

/-- The monitor together with a record of what was observed: `accepted` is the
argument of the most recent `startRecording` that returned `true`, `emitted`
lists every step passed to the callback with the value of `accepted` at that
moment. -/
structure Session where
  monitor : EventMonitor
  accepted : Option String
  emitted : List (RecordedStep × Option String)

/-- A session that begins at the monitor `m`, no start made yet. -/
def Session.begin (m : EventMonitor) : Session :=
  { monitor := m, accepted := none, emitted := [] }

/-- The session after one action. -/
def Session.apply (s : Session) : Action → Session
  | Action.start sessionId os =>
    let r := startRecording s.monitor sessionId os
    { s with
      monitor := r.monitor
      accepted := if r.ok then some sessionId else s.accepted }
  | Action.stop => { s with monitor := (stopRecording s.monitor).1 }
  | Action.setCallback callback => { s with monitor := setStepCallback s.monitor callback }
  | Action.event fuel d =>
    { s with
      emitted := s.emitted ++ (deliver fuel s.monitor d).invoked.map (fun st => (st, s.accepted)) }

/-- The session after a sequence of actions, first action first. -/
def runActions (s : Session) (actions : List Action) : Session :=
  actions.foldl Session.apply s

/-! ## Parent chains -/

/-- The node the ancestry walk moves to after `e`: the value of the parent
attribute when the read succeeds with a non-null value. -/
def parentOf (w : World) (e : AXUIElementRef) : Option AXUIElementRef :=
  if (w.copyAttributeValue e AXAttribute.parent).1 = kAXErrorSuccess then
    (w.copyAttributeValue e AXAttribute.parent).2
  else none

/-- The list `chain` holds the ancestors of `e`, nearest first, and the last of them (or
`e` itself when there is none) has no parent. -/
def IsAncestorChain (w : World) : AXUIElementRef → List AXUIElementRef → Prop
  | e, [] => parentOf w e = none
  | e, p :: rest => parentOf w e = some p ∧ IsAncestorChain w p rest

/-- Whether `chain` is the ancestor chain of `e` can be computed by following it. -/
def IsAncestorChain.decidable (w : World) :
    (e : AXUIElementRef) → (chain : List AXUIElementRef) → Decidable (IsAncestorChain w e chain)
  | e, [] => inferInstanceAs (Decidable (parentOf w e = none))
  | e, p :: rest =>
    have : Decidable (IsAncestorChain w p rest) := IsAncestorChain.decidable w p rest
    inferInstanceAs (Decidable (parentOf w e = some p ∧ IsAncestorChain w p rest))

instance (w : World) (e : AXUIElementRef) (chain : List AXUIElementRef) :
    Decidable (IsAncestorChain w e chain) :=
  IsAncestorChain.decidable w e chain

/-- The path component of a node as the specification words it: the role, then
`[title="…"]` when the title is not empty, then `[id="…"]` when the identifier
is not empty. -/
def pathOf (w : World) (n : AXUIElementRef) : String :=
  let role := (getStringAttributeForElement w (some n) AXAttribute.role).1
  let title := (getStringAttributeForElement w (some n) AXAttribute.title).1
  let identifier := (getStringAttributeForElement w (some n) AXAttribute.identifier).1
  role ++ (if title = "" then "" else "[title=\"" ++ title ++ "\"]")
       ++ (if identifier = "" then "" else "[id=\"" ++ identifier ++ "\"]")

/-- Tap and run-loop source handles are null unless the monitor is recording. -/
def HandlesOnlyWhileRecording (m : EventMonitor) : Prop :=
  (m.mouseEventTap ≠ none ∨ m.keyEventTap ≠ none ∨
    m.mouseRunLoopSource ≠ none ∨ m.keyRunLoopSource ≠ none) → m.isRecording = true

instance (m : EventMonitor) : Decidable (HandlesOnlyWhileRecording m) := by
  unfold HandlesOnlyWhileRecording
  infer_instance

/-! ## Sample inputs -/

/-- Both registrations are granted. -/
def osGranted : TapOS :=
  { mouseTapCreate := some 11
    keyTapCreate := some 12
    createRunLoopSource := fun port => some (port + 10)
    runLoopGetCurrent := some 1 }

/-- The pointer tap is granted, the keyboard tap is refused. -/
def osKeyDenied : TapOS :=
  { mouseTapCreate := some 11
    keyTapCreate := none
    createRunLoopSource := fun port => some (port + 10)
    runLoopGetCurrent := some 1 }

/-- A start, a stop, and a start again, every registration granted. -/
def sampleCalls : List Call :=
  [Call.start "s1" osGranted, Call.stop, Call.start "s2" osGranted]

/-- The monitor after one granted `startRecording` with session "s1". -/
def activeMonitor : EventMonitor :=
  (startRecording EventMonitor.new "s1" osGranted).monitor

/-- The monitor after the recorder bound its callback and one granted
`startRecording` with session "s1" was made. -/
def recordingMonitor : EventMonitor :=
  (startRecording (setStepCallback EventMonitor.new (some 1)) "s1" osGranted).monitor

/-- The accessibility service gives no system-wide element; the front process is
"Finder"; a key press with the single unit 97 decodes to "a". -/
def emptyWorld : World :=
  { now := 1700000000000
    createSystemWide := none
    copyElementAtPosition := fun _ _ => (-25204, none)
    copyAttributeValue := fun _ _ => (-25204, none)
    stringData := fun _ => none
    axValueCGPoint := fun _ => none
    axValueCGSize := fun _ => none
    createWithCharacters := fun units =>
      if units = [97] then some { cStringPtr := some "a", getCString := some "a" }
      else some { cStringPtr := none, getCString := none }
    frontProcessName := some { cStringPtr := some "Finder", getCString := none }
    frontProcessPID := 321
    uninit :=
      { timestamp := 0
        location := { x := 0, y := 0 }
        frame := { x := 0, y := 0, width := 0, height := 0 }
        processId := 0 } }

/-- Attribute reads of a three-level tree: application 1, its window 2, a button 3
in the window; 0 is the system-wide element, whose focused application is 1,
whose focused element is 3. Values are numbered `10 * element + k`. -/
def treeAttribute (e : AXUIElementRef) (attr : AXAttribute) : AXError × Option CFTypeRef :=
  if e = 0 ∧ attr = AXAttribute.focusedApplication then (0, some 1)
  else if e = 1 ∧ attr = AXAttribute.focusedUIElement then (0, some 3)
  else if e = 3 ∧ attr = AXAttribute.parent then (0, some 2)
  else if e = 2 ∧ attr = AXAttribute.parent then (0, some 1)
  else if e = 1 ∧ attr = AXAttribute.role then (0, some 11)
  else if e = 1 ∧ attr = AXAttribute.title then (0, some 12)
  else if e = 2 ∧ attr = AXAttribute.role then (0, some 21)
  else if e = 2 ∧ attr = AXAttribute.title then (0, some 22)
  else if e = 2 ∧ attr = AXAttribute.identifier then (0, some 23)
  else if e = 3 ∧ attr = AXAttribute.role then (0, some 31)
  else if e = 3 ∧ attr = AXAttribute.identifier then (0, some 33)
  else (-25205, none)

/-- The strings behind the values of `treeAttribute`. -/
def treeString (v : CFTypeRef) : Option CFStringData :=
  if v = 11 then some { cStringPtr := some "AXApplication", getCString := none }
  else if v = 12 then some { cStringPtr := none, getCString := some "Editor" }
  else if v = 21 then some { cStringPtr := some "AXWindow", getCString := none }
  else if v = 22 then some { cStringPtr := some "Untitled", getCString := none }
  else if v = 23 then some { cStringPtr := some "main", getCString := none }
  else if v = 31 then some { cStringPtr := some "AXButton", getCString := none }
  else if v = 33 then some { cStringPtr := some "ok", getCString := none }
  else none

/-- A release of the left button, a pointer move, a key release and a change of
the modifier flags, in the world of the three-level tree. -/
def discardedStream (w : World) (event : CGEvent) : List Delivery :=
  [ { tap := TapKind.mouse, type := kCGEventLeftMouseUp, event := event, world := w },
    { tap := TapKind.mouse, type := kCGEventMouseMoved, event := event, world := w },
    { tap := TapKind.key, type := kCGEventKeyUp, event := event, world := w },
    { tap := TapKind.key, type := kCGEventFlagsChanged, event := event, world := w } ]

/-- The world of the three-level tree; every screen point lies on the button 3. -/
def treeWorld : World :=
  { emptyWorld with
    createSystemWide := some 0
    copyElementAtPosition := fun _ _ => (0, some 3)
    copyAttributeValue := treeAttribute
    stringData := treeString }

/-- A pointer event at (100, 200) with no modifier held. -/
def eventAt100x200 : CGEvent :=
  { location := { x := CGFloat.ofInt 100, y := CGFloat.ofInt 200 }
    flags := 0
    keycode := 0
    unicodeString := [] }

/-- A pointer event at (100.5, 200.25) with no modifier held. -/
def eventAtHalfPixel : CGEvent :=
  { location := { x := { mant := 201, exp := 1 }, y := { mant := 801, exp := 2 } }
    flags := 0
    keycode := 0
    unicodeString := [] }

/-- A pointer event at (100, 200) with the shift key held. -/
def shiftEventAt100x200 : CGEvent :=
  { location := { x := CGFloat.ofInt 100, y := CGFloat.ofInt 200 }
    flags := kCGEventFlagMaskShift
    keycode := 0
    unicodeString := [] }

/-- A press of the key "a" (key code 0) with no modifier held. -/
def keyEventA : CGEvent :=
  { location := { x := CGFloat.ofInt 0, y := CGFloat.ofInt 0 }
    flags := 0
    keycode := 0
    unicodeString := [97] }

/-- No accessibility service, as in `emptyWorld`, and the memory of a fresh
`RecordedStep` holds the frame (1, 2, 3, 4) and the location (5, 6). -/
def staleMemoryWorld : World :=
  { emptyWorld with
    uninit :=
      { timestamp := 0
        location := { x := 5, y := 6 }
        frame := { x := 1, y := 2, width := 3, height := 4 }
        processId := 0 } }

/-- A left button-down at (100, 200) with no element under the pointer. -/
def clickOnNothing : Delivery :=
  { tap := TapKind.mouse
    type := kCGEventLeftMouseDown
    event := eventAt100x200
    world := emptyWorld }

/-- A press of the key "a" with no focused element. -/
def keyOnNothing : Delivery :=
  { tap := TapKind.key, type := kCGEventKeyDown, event := keyEventA, world := emptyWorld }

/-- The callback is bound, session "s1" starts, a click; a start "s2" while
recording (rejected), a click; a stop; a start "lost" whose keyboard tap is
refused (failed), a click; a start "s3", a key press. -/
def sampleActions : List Action :=
  [Action.setCallback (some 1),
   Action.start "s1" osGranted, Action.event 1 clickOnNothing,
   Action.start "s2" osGranted, Action.event 1 clickOnNothing,
   Action.stop,
   Action.start "lost" osKeyDenied, Action.event 1 clickOnNothing,
   Action.start "s3" osGranted, Action.event 1 keyOnNothing]

/-! ## Listener lifecycle: facts -/

theorem stopRecording_idle (m : EventMonitor) (h : m.isRecording = false) :
    stopRecording m = (m, []) := by
  simp [stopRecording, h]

theorem stopRecording_isRecording (m : EventMonitor) :
    (stopRecording m).1.isRecording = false := by
  obtain ⟨r, sid, mt, kt, rl, ms, ks, cb⟩ := m
  cases r
  · simp [stopRecording]
  · cases mt <;> cases kt <;> cases ms <;> cases ks <;> simp [stopRecording]

theorem stopRecording_handles (m : EventMonitor) (h : m.isRecording = true) :
    (stopRecording m).1.mouseEventTap = none ∧ (stopRecording m).1.keyEventTap = none ∧
    (stopRecording m).1.mouseRunLoopSource = none ∧
    (stopRecording m).1.keyRunLoopSource = none ∧ (stopRecording m).1.runLoop = none := by
  obtain ⟨r, sid, mt, kt, rl, ms, ks, cb⟩ := m
  simp only at h
  subst h
  cases mt <;> cases kt <;> cases ms <;> cases ks <;> simp [stopRecording]

theorem startRecording_active (m : EventMonitor) (sid : String) (os : TapOS)
    (h : m.isRecording = true) :
    startRecording m sid os = { ok := false, monitor := m, calls := [] } := by
  simp [startRecording, h]

theorem startRecording_registered (m : EventMonitor) (sid : String) (os : TapOS)
    (h : m.isRecording = false) (mt kt : CFMachPortRef)
    (hm : os.mouseTapCreate = some mt) (hk : os.keyTapCreate = some kt) :
    (startRecording m sid os).ok = true ∧
    (startRecording m sid os).monitor.isRecording = true ∧
    (startRecording m sid os).monitor.sessionId = sid := by
  simp [startRecording, h, hm, hk]

theorem startRecording_ok_iff (m : EventMonitor) (sid : String) (os : TapOS) :
    (startRecording m sid os).ok = true ↔
      m.isRecording = false ∧ os.mouseTapCreate.isSome = true ∧ os.keyTapCreate.isSome = true := by
  cases hr : m.isRecording
  · cases hm : os.mouseTapCreate <;> cases hk : os.keyTapCreate <;>
      simp [startRecording, hr, hm, hk]
  · simp [startRecording, hr]

theorem applyCall_isRecording (m : EventMonitor) (c : Call) (h : c.registrationOk = true) :
    (applyCall m c).isRecording = c.isStart := by
  cases c with
  | stop => simp [applyCall, Call.isStart, stopRecording_isRecording]
  | start sid os =>
    simp only [Call.registrationOk, Bool.and_eq_true, Option.isSome_iff_exists] at h
    obtain ⟨⟨mt, hm⟩, ⟨kt, hk⟩⟩ := h
    cases hr : m.isRecording
    · simp [applyCall, Call.isStart, (startRecording_registered m sid os hr mt kt hm hk).2.1]
    · simp [applyCall, Call.isStart, startRecording_active m sid os hr, hr]

theorem runCalls_snoc (m : EventMonitor) (cs : List Call) (c : Call) :
    runCalls m (cs ++ [c]) = applyCall (runCalls m cs) c := by
  simp [runCalls, List.foldl_append]

theorem lastIsStart_snoc (cs : List Call) (c : Call) :
    lastIsStart (cs ++ [c]) = c.isStart := by
  simp [lastIsStart]

/-! ## Ancestry walk: facts -/

theorem CGFloat.toInt_of_isInt (v : CGFloat) (i : Int) (h : v.isInt i) : v.toInt = i := by
  unfold CGFloat.isInt at h
  unfold CGFloat.toInt
  rw [h]
  exact Int.mul_tdiv_cancel i (pow_ne_zero _ (by decide))

theorem pathComponent_eq_pathOf (w : World) (n : AXUIElementRef) :
    pathComponent (getStringAttributeForElement w (some n) AXAttribute.role).1
      (getStringAttributeForElement w (some n) AXAttribute.title).1
      (getStringAttributeForElement w (some n) AXAttribute.identifier).1 = pathOf w n := by
  unfold pathComponent pathOf
  by_cases ht : (getStringAttributeForElement w (some n) AXAttribute.title).1 = "" <;>
    by_cases hi : (getStringAttributeForElement w (some n) AXAttribute.identifier).1 = "" <;>
    simp [ht, hi, String.append_assoc]

theorem parentOf_eq_none (w : World) (e : AXUIElementRef) (h : parentOf w e = none) :
    (w.copyAttributeValue e AXAttribute.parent).1 ≠ kAXErrorSuccess ∨
    (w.copyAttributeValue e AXAttribute.parent).2 = none := by
  unfold parentOf at h
  by_cases herr : (w.copyAttributeValue e AXAttribute.parent).1 = kAXErrorSuccess
  · right
    simpa [herr] using h
  · left
    exact herr

theorem parentOf_eq_some (w : World) (e p : AXUIElementRef) (h : parentOf w e = some p) :
    (w.copyAttributeValue e AXAttribute.parent).1 = kAXErrorSuccess ∧
    (w.copyAttributeValue e AXAttribute.parent).2 = some p := by
  unfold parentOf at h
  by_cases herr : (w.copyAttributeValue e AXAttribute.parent).1 = kAXErrorSuccess
  · exact ⟨herr, by simpa [herr] using h⟩
  · simp [herr] at h

theorem ancestryLoop_of_chain (w : World) (chain : List AXUIElementRef) :
    ∀ (e : AXUIElementRef) (fuel : Nat) (path : List String),
      IsAncestorChain w e chain → chain.length < fuel →
      (ancestryLoop w fuel e path).1 = some (((e :: chain).reverse.map (pathOf w)) ++ path) := by
  induction chain with
  | nil =>
    intro e fuel path hch hfuel
    obtain ⟨f, rfl⟩ : ∃ f, fuel = f + 1 := ⟨fuel - 1, by omega⟩
    simp only [IsAncestorChain] at hch
    rcases parentOf_eq_none w e hch with h | h
    · simp [ancestryLoop, h, pathComponent_eq_pathOf]
    · by_cases herr : (w.copyAttributeValue e AXAttribute.parent).1 = kAXErrorSuccess
      · simp [ancestryLoop, h, herr, pathComponent_eq_pathOf]
      · simp [ancestryLoop, herr, pathComponent_eq_pathOf]
  | cons p rest ih =>
    intro e fuel path hch hfuel
    obtain ⟨f, rfl⟩ : ∃ f, fuel = f + 1 := ⟨fuel - 1, by omega⟩
    simp only [IsAncestorChain] at hch
    obtain ⟨herr, hp⟩ := parentOf_eq_some w e p hch.1
    have hf : rest.length < f := by
      simp only [List.length_cons] at hfuel
      omega
    simp [ancestryLoop, herr, hp, ih p f _ hch.2 hf, pathComponent_eq_pathOf]

theorem getAncestryPath_of_chain (w : World) (e : AXUIElementRef)
    (chain : List AXUIElementRef) (fuel : Nat)
    (hch : IsAncestorChain w e chain) (hfuel : chain.length < fuel) :
    (AXElementInfo.getAncestryPath { element := some e } fuel w).1 =
      some ((chain.reverse ++ [e]).map (pathOf w)) := by
  simp [AXElementInfo.getAncestryPath, ancestryLoop_of_chain w chain e fuel [] hch hfuel]

theorem describeTarget_of_chain (w : World) (e : AXUIElementRef)
    (chain : List AXUIElementRef) (fuel : Nat)
    (hch : IsAncestorChain w e chain) (hfuel : chain.length < fuel) :
    ∃ td, (describeTarget fuel w e).1 = some td ∧
      td.ancestry = (chain.reverse ++ [e]).map (pathOf w) := by
  have h := getAncestryPath_of_chain w e chain fuel hch hfuel
  simp [describeTarget, AXElementInfo.setElement, h]

/-- With more fuel than the parent chain is long, the element block of a handler
finishes: it leaves the descriptor untouched when there is no element, and
else fills in the ancestry of the chain. -/
theorem resolveTarget_of_chain (w : World) (element : Option AXUIElementRef)
    (untouched : TargetDescriptor) (chain : List AXUIElementRef)
    (hch : ∀ e, element = some e → IsAncestorChain w e chain)
    (fuel : Nat) (hfuel : chain.length < fuel) :
    ∃ td, (resolveTarget fuel w element untouched).1 = some td ∧
      (element = none → td = untouched) ∧
      (∀ e, element = some e → td.ancestry = (chain.reverse ++ [e]).map (pathOf w)) := by
  cases element with
  | none => exact ⟨untouched, rfl, fun _ => rfl, fun e h => by simp at h⟩
  | some e =>
    obtain ⟨td, htd, hanc⟩ := describeTarget_of_chain w e chain fuel (hch e rfl) hfuel
    refine ⟨td, by simpa [resolveTarget] using htd, fun h => by simp at h, ?_⟩
    intro e' he'
    cases he'
    exact hanc

/-! ## Handlers: facts -/

theorem handleMouseEvent_completion (fuel : Nat) (m : EventMonitor) (w : World)
    (type : CGEventType) (event : CGEvent) :
    (handleMouseEvent fuel m w type event).completion = Completion.running ∨
    (handleMouseEvent fuel m w type event).completion = Completion.returned (some event) := by
  unfold handleMouseEvent
  split
  · right; rfl
  · dsimp only
    split
    · left; rfl
    · split <;> (right; rfl)

theorem handleKeyEvent_completion (fuel : Nat) (m : EventMonitor) (w : World)
    (type : CGEventType) (event : CGEvent) :
    (handleKeyEvent fuel m w type event).completion = Completion.running ∨
    (handleKeyEvent fuel m w type event).completion = Completion.returned (some event) := by
  unfold handleKeyEvent
  split
  · right; rfl
  · split
    · right; rfl
    · dsimp only
      split
      · left; rfl
      · right; rfl

theorem classifyMouse_none (type : CGEventType) (step : RecordedStep)
    (h1 : type ≠ kCGEventLeftMouseDown) (h2 : type ≠ kCGEventRightMouseDown)
    (h3 : type ≠ kCGEventLeftMouseDragged) (h4 : type ≠ kCGEventRightMouseDragged) :
    classifyMouse type step = none := by
  unfold classifyMouse
  simp [h1, h2, h3, h4]

theorem handleMouseEvent_discarded (fuel : Nat) (m : EventMonitor) (w : World)
    (type : CGEventType) (event : CGEvent)
    (h1 : type ≠ kCGEventLeftMouseDown) (h2 : type ≠ kCGEventRightMouseDown)
    (h3 : type ≠ kCGEventLeftMouseDragged) (h4 : type ≠ kCGEventRightMouseDragged) :
    (handleMouseEvent fuel m w type event).invoked = [] := by
  unfold handleMouseEvent
  split
  · rfl
  · dsimp only
    split
    · rfl
    · rw [classifyMouse_none type _ h1 h2 h3 h4]

theorem handleKeyEvent_discarded (fuel : Nat) (m : EventMonitor) (w : World)
    (type : CGEventType) (event : CGEvent) (h : type ≠ kCGEventKeyDown) :
    handleKeyEvent fuel m w type event =
      { completion := Completion.returned (some event), invoked := [], queries := [] } := by
  unfold handleKeyEvent
  split
  · rfl
  · simp [h]

theorem handler_not_armed (m : EventMonitor)
    (h : m.isRecording = false ∨ m.stepCallback = none) :
    (!m.isRecording || m.stepCallback.isNone) = true := by
  rcases h with h | h <;> simp [h]

theorem handler_armed (m : EventMonitor)
    (hrec : m.isRecording = true) (hcb : m.stepCallback.isSome = true) :
    (!m.isRecording || m.stepCallback.isNone) = false := by
  obtain ⟨cb, hcb⟩ := Option.isSome_iff_exists.1 hcb
  simp [hrec, hcb]

/-- The step a recording monitor with a callback passes on for a down or drag
event, once the element block has produced the descriptor `td`. -/
theorem handleMouseEvent_step (fuel : Nat) (m : EventMonitor) (w : World)
    (type : CGEventType) (event : CGEvent) (td : TargetDescriptor)
    (hrec : m.isRecording = true) (hcb : m.stepCallback.isSome = true)
    (htype : type = kCGEventLeftMouseDown ∨ type = kCGEventRightMouseDown ∨
      type = kCGEventLeftMouseDragged ∨ type = kCGEventRightMouseDragged)
    (htd : (resolveTarget fuel w (getElementAtPoint w event.location).1
      (RecordedStep.uninit w.uninit).targetDescriptor).1 = some td) :
    ∃ step : RecordedStep,
      (handleMouseEvent fuel m w type event).completion = Completion.returned (some event) ∧
      (handleMouseEvent fuel m w type event).invoked = [step] ∧
      step.timestamp = w.now ∧ step.sessionId = m.sessionId ∧
      step.action =
        (if type = kCGEventLeftMouseDown ∨ type = kCGEventRightMouseDown then "click"
         else "drag") ∧
      step.button =
        (if type = kCGEventLeftMouseDown ∨ type = kCGEventLeftMouseDragged then "left"
         else "right") ∧
      step.text = "" ∧
      step.location = { x := event.location.x.toInt, y := event.location.y.toInt } ∧
      step.modifiers = {} ∧ step.targetDescriptor = td ∧
      step.appInfo = (getCurrentApplication w).1 := by
  have harm := handler_armed m hrec hcb
  unfold handleMouseEvent
  rw [if_neg (by simp [harm])]
  dsimp only
  dsimp only [RecordedStep.uninit] at htd
  simp only [RecordedStep.uninit, htd]
  rcases htype with rfl | rfl | rfl | rfl <;>
    simp [classifyMouse, kCGEventLeftMouseDown, kCGEventRightMouseDown, kCGEventLeftMouseUp,
      kCGEventRightMouseUp, kCGEventLeftMouseDragged, kCGEventRightMouseDragged]

theorem mask_ne_zero_eq_testBit (flags i : Nat) :
    ((flags &&& 2 ^ i) != 0) = flags.testBit i := by
  rw [Nat.and_two_pow]
  cases flags.testBit i <;> simp

theorem keyText_of_no_characters (w : World) (event : CGEvent)
    (h : event.unicodeString = []) : keyText w event = "" := by
  simp [keyText, h]

theorem keyText_of_decoded (w : World) (event : CGEvent) (d : CFStringData) (t : String)
    (hlen : event.unicodeString ≠ [])
    (hstr : w.createWithCharacters event.unicodeString = some d)
    (hdec : d.cStringPtr = some t ∨ (d.cStringPtr = none ∧ d.getCString = some t)) :
    keyText w event = t := by
  have hpos : 0 < event.unicodeString.length := List.length_pos.2 hlen
  rcases hdec with h | ⟨h1, h2⟩
  · simp [keyText, hpos, hstr, decodeCFString, h]
  · simp [keyText, hpos, hstr, decodeCFString, h1, h2]

/-- The step a recording monitor with a callback passes on for a key-down
event, once the element block has produced the descriptor `td`. -/
theorem handleKeyEvent_step (fuel : Nat) (m : EventMonitor) (w : World)
    (event : CGEvent) (td : TargetDescriptor)
    (hrec : m.isRecording = true) (hcb : m.stepCallback.isSome = true)
    (htd : (resolveTarget fuel w (getFocusedElement w).1
      (RecordedStep.uninit w.uninit).targetDescriptor).1 = some td) :
    ∃ step : RecordedStep,
      (handleKeyEvent fuel m w kCGEventKeyDown event).completion =
        Completion.returned (some event) ∧
      (handleKeyEvent fuel m w kCGEventKeyDown event).invoked = [step] ∧
      step.timestamp = w.now ∧ step.sessionId = m.sessionId ∧
      step.action = "type" ∧ step.button = "" ∧ step.text = keyText w event ∧
      step.location = w.uninit.location ∧
      step.modifiers =
        { shift := event.flags.testBit 17
          control := event.flags.testBit 18
          option := event.flags.testBit 19
          command := event.flags.testBit 20 } ∧
      step.targetDescriptor = td ∧
      step.appInfo = (getCurrentApplication w).1 := by
  have harm := handler_armed m hrec hcb
  have b17 : ∀ f : Nat, (f &&& 131072 != 0) = f.testBit 17 := fun f =>
    mask_ne_zero_eq_testBit f 17
  have b18 : ∀ f : Nat, (f &&& 262144 != 0) = f.testBit 18 := fun f =>
    mask_ne_zero_eq_testBit f 18
  have b19 : ∀ f : Nat, (f &&& 524288 != 0) = f.testBit 19 := fun f =>
    mask_ne_zero_eq_testBit f 19
  have b20 : ∀ f : Nat, (f &&& 1048576 != 0) = f.testBit 20 := fun f =>
    mask_ne_zero_eq_testBit f 20
  unfold handleKeyEvent
  rw [if_neg (by simp [harm]), if_neg (by simp)]
  dsimp only
  dsimp only [RecordedStep.uninit] at htd
  simp [RecordedStep.uninit, htd, kCGEventFlagMaskShift, kCGEventFlagMaskControl,
    kCGEventFlagMaskAlternate, kCGEventFlagMaskCommand, b17, b18, b19, b20]

theorem handleMouseEvent_returns (fuel : Nat) (m : EventMonitor) (w : World)
    (type : CGEventType) (event : CGEvent) (td : TargetDescriptor)
    (htd : (resolveTarget fuel w (getElementAtPoint w event.location).1
      (RecordedStep.uninit w.uninit).targetDescriptor).1 = some td) :
    (handleMouseEvent fuel m w type event).completion = Completion.returned (some event) := by
  unfold handleMouseEvent
  split
  · rfl
  · dsimp only
    dsimp only [RecordedStep.uninit] at htd
    simp only [RecordedStep.uninit, htd]
    split <;> rfl

theorem handleKeyEvent_returns (fuel : Nat) (m : EventMonitor) (w : World)
    (type : CGEventType) (event : CGEvent) (td : TargetDescriptor)
    (htd : (resolveTarget fuel w (getFocusedElement w).1
      (RecordedStep.uninit w.uninit).targetDescriptor).1 = some td) :
    (handleKeyEvent fuel m w type event).completion = Completion.returned (some event) := by
  unfold handleKeyEvent
  split
  · rfl
  · split
    · rfl
    · dsimp only
      dsimp only [RecordedStep.uninit] at htd
      simp only [RecordedStep.uninit, htd]

theorem testBit_iff_mask (flags i : Nat) :
    flags.testBit i = true ↔ flags &&& 2 ^ i ≠ 0 := by
  rw [← mask_ne_zero_eq_testBit]
  simp

theorem deliver_discarded (fuel : Nat) (m : EventMonitor) (d : Delivery)
    (h : d.discarded) : (deliver fuel m d).invoked = [] := by
  unfold Delivery.discarded at h
  unfold deliver
  cases htap : d.tap with
  | mouse =>
    rw [htap] at h
    obtain ⟨h1, h2, h3, h4⟩ := h
    exact handleMouseEvent_discarded fuel m d.world d.type d.event h1 h2 h3 h4
  | key =>
    rw [htap] at h
    simp only
    rw [handleKeyEvent_discarded fuel m d.world d.type d.event h]

theorem deliverAll_discarded (fuel : Nat) (m : EventMonitor) (ds : List Delivery)
    (h : ∀ d ∈ ds, d.discarded) : deliverAll fuel m ds = [] := by
  induction ds with
  | nil => rfl
  | cons d ds ih =>
    have hd := deliver_discarded fuel m d (h d (by simp))
    have hds := ih (fun d' hd' => h d' (by simp [hd']))
    unfold deliverAll
    split <;> simp [hd, hds]

theorem shift_mask_iff (flags : Nat) :
    flags.testBit 17 = true ↔ flags &&& kCGEventFlagMaskShift ≠ 0 :=
  testBit_iff_mask flags 17

theorem control_mask_iff (flags : Nat) :
    flags.testBit 18 = true ↔ flags &&& kCGEventFlagMaskControl ≠ 0 :=
  testBit_iff_mask flags 18

theorem alternate_mask_iff (flags : Nat) :
    flags.testBit 19 = true ↔ flags &&& kCGEventFlagMaskAlternate ≠ 0 :=
  testBit_iff_mask flags 19

theorem command_mask_iff (flags : Nat) :
    flags.testBit 20 = true ↔ flags &&& kCGEventFlagMaskCommand ≠ 0 :=
  testBit_iff_mask flags 20

theorem handleMouseEvent_not_armed (fuel : Nat) (m : EventMonitor) (w : World)
    (type : CGEventType) (event : CGEvent)
    (h : m.isRecording = false ∨ m.stepCallback = none) :
    handleMouseEvent fuel m w type event =
      { completion := Completion.returned (some event), invoked := [], queries := [] } := by
  have harm := handler_not_armed m h
  simp [handleMouseEvent, harm]

theorem handleKeyEvent_not_armed (fuel : Nat) (m : EventMonitor) (w : World)
    (type : CGEventType) (event : CGEvent)
    (h : m.isRecording = false ∨ m.stepCallback = none) :
    handleKeyEvent fuel m w type event =
      { completion := Completion.returned (some event), invoked := [], queries := [] } := by
  have harm := handler_not_armed m h
  simp [handleKeyEvent, harm]

theorem classifyMouse_sessionId (type : CGEventType) (step step' : RecordedStep)
    (h : classifyMouse type step = some step') : step'.sessionId = step.sessionId := by
  unfold classifyMouse at h
  split_ifs at h <;> cases h <;> rfl

theorem handleMouseEvent_invoked_sessionId (fuel : Nat) (m : EventMonitor) (w : World)
    (type : CGEventType) (event : CGEvent) :
    ∀ st ∈ (handleMouseEvent fuel m w type event).invoked,
      m.isRecording = true ∧ st.sessionId = m.sessionId := by
  cases hrec : m.isRecording with
  | false =>
    rw [handleMouseEvent_not_armed fuel m w type event (Or.inl hrec)]
    simp
  | true =>
    unfold handleMouseEvent
    split
    · simp
    · dsimp only
      split
      · simp
      · split
        · simp
        · rename_i step5 hcl
          intro st hst
          simp only [List.mem_singleton] at hst
          subst hst
          exact ⟨rfl, classifyMouse_sessionId _ _ _ hcl⟩

theorem handleKeyEvent_invoked_sessionId (fuel : Nat) (m : EventMonitor) (w : World)
    (type : CGEventType) (event : CGEvent) :
    ∀ st ∈ (handleKeyEvent fuel m w type event).invoked,
      m.isRecording = true ∧ st.sessionId = m.sessionId := by
  cases hrec : m.isRecording with
  | false =>
    rw [handleKeyEvent_not_armed fuel m w type event (Or.inl hrec)]
    simp
  | true =>
    unfold handleKeyEvent
    split
    · simp
    · split
      · simp
      · dsimp only
        split
        · simp
        · intro st hst
          simp only [List.mem_singleton] at hst
          subst hst
          exact ⟨rfl, rfl⟩

theorem deliver_invoked_sessionId (fuel : Nat) (m : EventMonitor) (d : Delivery) :
    ∀ st ∈ (deliver fuel m d).invoked,
      m.isRecording = true ∧ st.sessionId = m.sessionId := by
  unfold deliver
  cases d.tap with
  | mouse => exact handleMouseEvent_invoked_sessionId fuel m d.world d.type d.event
  | key => exact handleKeyEvent_invoked_sessionId fuel m d.world d.type d.event

theorem deliver_idle (fuel : Nat) (m : EventMonitor) (d : Delivery)
    (h : m.isRecording = false) : (deliver fuel m d).invoked = [] := by
  unfold deliver
  cases d.tap with
  | mouse => simp [handleMouseEvent_not_armed fuel m d.world d.type d.event (Or.inl h)]
  | key => simp [handleKeyEvent_not_armed fuel m d.world d.type d.event (Or.inl h)]

theorem startRecording_idle_cases (m : EventMonitor) (sid : String) (os : TapOS)
    (h : m.isRecording = false) :
    ((startRecording m sid os).ok = true ∧
      (startRecording m sid os).monitor.isRecording = true ∧
      (startRecording m sid os).monitor.sessionId = sid) ∨
    ((startRecording m sid os).ok = false ∧
      (startRecording m sid os).monitor.isRecording = false) := by
  cases hm : os.mouseTapCreate <;> cases hk : os.keyTapCreate <;>
    simp [startRecording, stopRecording, h, hm, hk]

/-- What every reachable session satisfies: while recording, the stored session
id is the accepted one, and every emitted step carries the id accepted at its
moment. -/
theorem Session.apply_keeps (s : Session) (a : Action)
    (hrec : s.monitor.isRecording = true → s.accepted = some s.monitor.sessionId)
    (hem : ∀ p ∈ s.emitted, p.2 = some p.1.sessionId) :
    ((s.apply a).monitor.isRecording = true →
      (s.apply a).accepted = some (s.apply a).monitor.sessionId) ∧
    (∀ p ∈ (s.apply a).emitted, p.2 = some p.1.sessionId) := by
  cases a with
  | start sid os =>
    refine ⟨?_, hem⟩
    cases hr : s.monitor.isRecording with
    | true =>
      simp only [Session.apply, startRecording_active s.monitor sid os hr]
      intro _
      simpa using hrec hr
    | false =>
      simp only [Session.apply]
      rcases startRecording_idle_cases s.monitor sid os hr with ⟨hok, _, hsid⟩ | ⟨_, hidle⟩
      · intro _
        simp [hok, hsid]
      · intro h
        rw [hidle] at h
        cases h
  | stop =>
    refine ⟨?_, hem⟩
    simp only [Session.apply]
    intro h
    rw [stopRecording_isRecording] at h
    cases h
  | setCallback cb =>
    exact ⟨hrec, hem⟩
  | event fuel d =>
    refine ⟨hrec, ?_⟩
    simp only [Session.apply]
    intro p hp
    rcases List.mem_append.1 hp with h | h
    · exact hem p h
    · obtain ⟨st, hst, rfl⟩ := List.mem_map.1 h
      obtain ⟨hr, hsid⟩ := deliver_invoked_sessionId fuel s.monitor d st hst
      simp [hrec hr, hsid]

theorem runActions_keeps (actions : List Action) :
    ∀ s : Session,
      (s.monitor.isRecording = true → s.accepted = some s.monitor.sessionId) →
      (∀ p ∈ s.emitted, p.2 = some p.1.sessionId) →
      ((runActions s actions).monitor.isRecording = true →
        (runActions s actions).accepted = some (runActions s actions).monitor.sessionId) ∧
      (∀ p ∈ (runActions s actions).emitted, p.2 = some p.1.sessionId) := by
  induction actions with
  | nil => exact fun s hrec hem => ⟨hrec, hem⟩
  | cons a rest ih =>
    intro s hrec hem
    obtain ⟨h1, h2⟩ := Session.apply_keeps s a hrec hem
    exact ih (s.apply a) h1 h2

theorem startRecording_not_ok (m : EventMonitor) (sid : String) (os : TapOS)
    (h : (startRecording m sid os).ok = false) :
    (startRecording m sid os).monitor.stepCallback = m.stepCallback ∧
    (startRecording m sid os).monitor.isRecording = m.isRecording ∧
    ((startRecording m sid os).monitor.isRecording = true →
      (startRecording m sid os).monitor = m) := by
  cases hr : m.isRecording with
  | true => simp [startRecording_active m sid os hr, hr]
  | false =>
    cases hm : os.mouseTapCreate <;> cases hk : os.keyTapCreate <;>
      simp_all [startRecording, stopRecording]

theorem startRecording_idle_congr (m m' : EventMonitor) (sid : String) (os : TapOS)
    (h : m.isRecording = false) (h' : m'.isRecording = false)
    (hcb : m.stepCallback = m'.stepCallback) :
    (startRecording m sid os).ok = (startRecording m' sid os).ok ∧
    (startRecording m sid os).monitor.stepCallback =
      (startRecording m' sid os).monitor.stepCallback ∧
    (startRecording m sid os).monitor.isRecording =
      (startRecording m' sid os).monitor.isRecording ∧
    ((startRecording m sid os).monitor.isRecording = true →
      (startRecording m sid os).monitor = (startRecording m' sid os).monitor) := by
  cases hm : os.mouseTapCreate <;> cases hk : os.keyTapCreate <;>
    simp [startRecording, stopRecording, h, h', hm, hk, hcb]

theorem stopRecording_stepCallback (m : EventMonitor) :
    (stopRecording m).1.stepCallback = m.stepCallback := by
  obtain ⟨r, sid, mt, kt, rl, ms, ks, cb⟩ := m
  cases r
  · simp [stopRecording]
  · cases mt <;> cases kt <;> cases ms <;> cases ks <;> simp [stopRecording]

/-- Two sessions that agree on the callback, on whether they record, on the whole
monitor while recording, and on what was observed so far, still agree after
the same action. -/
theorem Session.apply_agree (s s' : Session) (a : Action)
    (hcb : s.monitor.stepCallback = s'.monitor.stepCallback)
    (hr : s.monitor.isRecording = s'.monitor.isRecording)
    (heq : s.monitor.isRecording = true → s.monitor = s'.monitor)
    (hacc : s.accepted = s'.accepted) (hem : s.emitted = s'.emitted) :
    (s.apply a).monitor.stepCallback = (s'.apply a).monitor.stepCallback ∧
    (s.apply a).monitor.isRecording = (s'.apply a).monitor.isRecording ∧
    ((s.apply a).monitor.isRecording = true → (s.apply a).monitor = (s'.apply a).monitor) ∧
    (s.apply a).accepted = (s'.apply a).accepted ∧
    (s.apply a).emitted = (s'.apply a).emitted := by
  cases hrec : s.monitor.isRecording with
  | true =>
    have hm : s.monitor = s'.monitor := heq hrec
    cases a <;> simp [Session.apply, hm, hacc, hem]
  | false =>
    have hrec' : s'.monitor.isRecording = false := by rw [← hr, hrec]
    cases a with
    | start sid os =>
      obtain ⟨h1, h2, h3, h4⟩ :=
        startRecording_idle_congr s.monitor s'.monitor sid os hrec hrec' hcb
      simp only [Session.apply]
      exact ⟨h2, h3, h4, by rw [h1, hacc], hem⟩
    | stop =>
      simp only [Session.apply]
      rw [stopRecording_idle s.monitor hrec, stopRecording_idle s'.monitor hrec']
      exact ⟨hcb, hr, heq, hacc, hem⟩
    | setCallback cb =>
      simp [Session.apply, setStepCallback, hrec, hrec', hacc, hem]
    | event fuel d =>
      simp only [Session.apply]
      refine ⟨hcb, hr, heq, hacc, ?_⟩
      rw [deliver_idle fuel s.monitor d hrec, deliver_idle fuel s'.monitor d hrec', hem]
      simp

theorem runActions_agree (actions : List Action) :
    ∀ s s' : Session,
      s.monitor.stepCallback = s'.monitor.stepCallback →
      s.monitor.isRecording = s'.monitor.isRecording →
      (s.monitor.isRecording = true → s.monitor = s'.monitor) →
      s.accepted = s'.accepted → s.emitted = s'.emitted →
      (runActions s actions).emitted = (runActions s' actions).emitted := by
  induction actions with
  | nil => exact fun s s' _ _ _ _ hem => hem
  | cons a rest ih =>
    intro s s' hcb hr heq hacc hem
    obtain ⟨h1, h2, h3, h4, h5⟩ := Session.apply_agree s s' a hcb hr heq hacc hem
    exact ih (s.apply a) (s'.apply a) h1 h2 h3 h4 h5

theorem runActions_append (s : Session) (pre post : List Action) :
    runActions s (pre ++ post) = runActions (runActions s pre) post := by
  simp [runActions, List.foldl_append]

/-- A start that returns `false` can be struck from the sequence of actions
without changing any emitted step. -/
theorem runActions_skip_refused_start (s0 : Session) (pre post : List Action)
    (sid : String) (os : TapOS)
    (h : (startRecording (runActions s0 pre).monitor sid os).ok = false) :
    (runActions s0 (pre ++ Action.start sid os :: post)).emitted =
      (runActions s0 (pre ++ post)).emitted := by
  rw [runActions_append, runActions_append]
  obtain ⟨h1, h2, h3⟩ := startRecording_not_ok (runActions s0 pre).monitor sid os h
  have hstep : runActions (runActions s0 pre) (Action.start sid os :: post) =
      runActions ((runActions s0 pre).apply (Action.start sid os)) post := rfl
  rw [hstep]
  apply runActions_agree post
  · simpa [Session.apply] using h1
  · simpa [Session.apply] using h2
  · simpa [Session.apply] using h3
  · simp [Session.apply, h]
  · simp [Session.apply]

/-! ## Step sink: facts -/

theorem drainCopy_eq (tempQueue : List RecordedStep) :
    ∀ steps : List JSValue,
      drainCopy tempQueue steps = steps ++ tempQueue.map RecordedStepToJS := by
  induction tempQueue with
  | nil => intro steps; simp [drainCopy]
  | cons front rest ih => intro steps; simp [drainCopy, ih]

theorem GetRecordedSteps_eq (queue : List RecordedStep) :
    GetRecordedSteps queue = (JSValue.array (queue.map RecordedStepToJS), queue) := by
  simp [GetRecordedSteps, drainCopy_eq]

theorem runSink_snoc (queue : List RecordedStep) (ops : List SinkOp) (op : SinkOp) :
    runSink queue (ops ++ [op]) = applySinkOp (runSink queue ops) op := by
  simp [runSink, List.foldl_append]

theorem pushedSinceClear_snoc (ops : List SinkOp) (op : SinkOp) :
    pushedSinceClear (ops ++ [op]) =
      match op with
      | SinkOp.push step => pushedSinceClear ops ++ [step]
      | SinkOp.snapshot => pushedSinceClear ops
      | SinkOp.clear => [] := by
  cases op <;>
    simp [pushedSinceClear, List.takeWhile_cons, SinkOp.isClear, SinkOp.pushed?,
      List.filterMap_append]

theorem runSink_eq_pushedSinceClear (ops : List SinkOp) :
    runSink [] ops = pushedSinceClear ops := by
  induction ops using List.reverseRecOn with
  | nil => rfl
  | append_singleton ops op ih =>
    rw [runSink_snoc, pushedSinceClear_snoc, ih]
    cases op <;> simp [applySinkOp, OnStepRecorded, GetRecordedSteps, ClearSteps]

/-! ## Sample inputs: facts -/

theorem recordingMonitor_armed :
    recordingMonitor.isRecording = true ∧ recordingMonitor.stepCallback.isSome = true ∧
    recordingMonitor.sessionId = "s1" := by
  simp [recordingMonitor, startRecording, setStepCallback, EventMonitor.new, osGranted]

theorem treeWorld_chain : IsAncestorChain treeWorld 3 [2, 1] := by
  simp [IsAncestorChain, parentOf, treeWorld, treeAttribute, kAXErrorSuccess]

theorem treeWorld_pathOf :
    pathOf treeWorld 1 = "AXApplication[title=\"Editor\"]" ∧
    pathOf treeWorld 2 = "AXWindow[title=\"Untitled\"][id=\"main\"]" ∧
    pathOf treeWorld 3 = "AXButton[id=\"ok\"]" := by
  refine ⟨?_, ?_, ?_⟩ <;>
    simp [pathOf, getStringAttributeForElement, treeWorld, treeAttribute, treeString,
      decodeCFString, kAXErrorSuccess]

theorem treeWorld_point (p : CGPoint) : (getElementAtPoint treeWorld p).1 = some 3 := by
  simp [getElementAtPoint, treeWorld, kAXErrorSuccess]

theorem treeWorld_focused : (getFocusedElement treeWorld).1 = some 3 := by
  simp [getFocusedElement, treeWorld, treeAttribute, kAXErrorSuccess]

theorem emptyWorld_point (p : CGPoint) : (getElementAtPoint emptyWorld p).1 = none := by
  simp [getElementAtPoint, emptyWorld]

theorem emptyWorld_focused : (getFocusedElement emptyWorld).1 = none := by
  simp [getFocusedElement, emptyWorld]

/-! ## Listener lifecycle: claims -/

/-- C2 (the code departs from the claim). A `startRecording` in the idle state
whose pointer tap is granted and whose keyboard tap is refused returns `false`
with `isRecording` false, but the granted pointer tap stays in `mouseEventTap`
and is neither disabled nor released: the only OS calls are the two
registrations, because the `stopRecording` called for the teardown returns at
its `!isRecording` guard. -/
theorem startRecording_refused_keeps_granted_tap :
    (startRecording EventMonitor.new "s1" osKeyDenied).ok = false ∧
    (startRecording EventMonitor.new "s1" osKeyDenied).monitor.isRecording = false ∧
    (startRecording EventMonitor.new "s1" osKeyDenied).monitor.mouseEventTap = some 11 ∧
    (startRecording EventMonitor.new "s1" osKeyDenied).calls =
      [OSCall.tapCreate TapKind.mouse, OSCall.tapCreate TapKind.key] := by
  simp [startRecording, stopRecording, EventMonitor.new, osKeyDenied]

/-- C3. For a sequence of `startRecording` / `stopRecording` calls whose
registrations all succeed, run from an idle monitor (or any monitor when the
sequence is not empty), `isRecordingActive` is true afterwards exactly when the
last call was a `startRecording`; and `stopRecording` on an idle monitor
returns the monitor with every field as it was and makes no OS call. -/
theorem isRecordingActive_iff_last_call_start (calls : List Call)
    (hreg : ∀ c ∈ calls, c.registrationOk = true) :
    (∀ m0 : EventMonitor, m0.isRecording = false ∨ calls ≠ [] →
      (isRecordingActive (runCalls m0 calls) = true ↔ lastIsStart calls = true)) ∧
    (∀ m : EventMonitor, m.isRecording = false → stopRecording m = (m, [])) := by
  refine ⟨?_, stopRecording_idle⟩
  intro m0 h0
  induction calls using List.reverseRecOn with
  | nil =>
    rcases h0 with h0 | h0
    · simp [runCalls, isRecordingActive, lastIsStart, h0]
    · exact absurd rfl h0
  | append_singleton cs c _ =>
    have hc : c.registrationOk = true := hreg c (by simp)
    rw [runCalls_snoc, lastIsStart_snoc, isRecordingActive, applyCall_isRecording _ _ hc]

/-- Witness for C3: start, stop, start from the constructor state. -/
theorem isRecordingActive_iff_last_call_start_witness :
    (∀ c ∈ sampleCalls, c.registrationOk = true) ∧
    (isRecordingActive (runCalls EventMonitor.new sampleCalls) = true ↔
      lastIsStart sampleCalls = true) :=
  have hreg : ∀ c ∈ sampleCalls, c.registrationOk = true := by
    simp [sampleCalls, Call.registrationOk, osGranted]
  ⟨hreg, (isRecordingActive_iff_last_call_start sampleCalls hreg).1 EventMonitor.new (Or.inl rfl)⟩

/-- C4. `startRecording` on a monitor that is recording returns `false`, leaves
every field of the monitor as it was (so `isRecording` stays true and the tap
and run-loop handles are the same), makes no OS call, and the stored session
id is still the argument of the earlier successful start that produced this
monitor. -/
theorem startRecording_while_active_is_noop (m : EventMonitor) (sid : String) (os : TapOS)
    (hactive : m.isRecording = true) :
    (startRecording m sid os).ok = false ∧
    (startRecording m sid os).monitor = m ∧
    (startRecording m sid os).monitor.isRecording = true ∧
    (startRecording m sid os).calls = [] ∧
    (∀ (m0 : EventMonitor) (sid0 : String) (os0 : TapOS),
      (startRecording m0 sid0 os0).ok = true → (startRecording m0 sid0 os0).monitor = m →
      (startRecording m sid os).monitor.sessionId = sid0) := by
  rw [startRecording_active m sid os hactive]
  refine ⟨rfl, rfl, hactive, rfl, ?_⟩
  intro m0 sid0 os0 hok hm
  obtain ⟨h0, hmt, hkt⟩ := (startRecording_ok_iff m0 sid0 os0).1 hok
  obtain ⟨mt, hmt⟩ := Option.isSome_iff_exists.1 hmt
  obtain ⟨kt, hkt⟩ := Option.isSome_iff_exists.1 hkt
  have := (startRecording_registered m0 sid0 os0 h0 mt kt hmt hkt).2.2
  rw [hm] at this
  exact this

/-- Witness for C4: a second start with another session id on the monitor made
by a granted start with session "s1". -/
theorem startRecording_while_active_is_noop_witness :
    activeMonitor.isRecording = true ∧
    (startRecording activeMonitor "s2" osGranted).ok = false ∧
    (startRecording activeMonitor "s2" osGranted).monitor = activeMonitor ∧
    (startRecording activeMonitor "s2" osGranted).monitor.sessionId = "s1" :=
  have hactive : activeMonitor.isRecording = true := by
    simp [activeMonitor, startRecording, EventMonitor.new, osGranted]
  have h := startRecording_while_active_is_noop activeMonitor "s2" osGranted hactive
  ⟨hactive, h.1, h.2.1,
    h.2.2.2.2 EventMonitor.new "s1" osGranted
      (by simp [startRecording, EventMonitor.new, osGranted]) rfl⟩

/-- C5 (the code departs from the claim). The state reached from the
constructor state by one `startRecording` whose keyboard tap is refused has a
non-null `mouseEventTap` while `isRecording` is false. -/
theorem refused_start_breaks_handles_only_while_recording :
    (runCalls EventMonitor.new [Call.start "s1" osKeyDenied]).isRecording = false ∧
    (runCalls EventMonitor.new [Call.start "s1" osKeyDenied]).mouseEventTap = some 11 ∧
    ¬ HandlesOnlyWhileRecording (runCalls EventMonitor.new [Call.start "s1" osKeyDenied]) := by
  simp [runCalls, applyCall, startRecording, stopRecording, EventMonitor.new, osKeyDenied,
    HandlesOnlyWhileRecording]

/-! ## Event handlers: claims -/

/-- C1. Both handlers hand back exactly the event they were given: in every
monitor state, for every event type and event, a handler call that has
returned has returned that event (never null, never another event), and the
call does return once the ancestry walk of the resolved element is over, which
takes more rounds than the parent chain of that element is long. A monitor
that is not recording or has no callback returns the event at once. -/
theorem handlers_return_the_given_event (m : EventMonitor) (w : World)
    (mouseType keyType : CGEventType) (mouseEvent keyEvent : CGEvent)
    (pointChain focusChain : List AXUIElementRef)
    (hpoint : ∀ e, (getElementAtPoint w mouseEvent.location).1 = some e →
      IsAncestorChain w e pointChain)
    (hfocus : ∀ e, (getFocusedElement w).1 = some e → IsAncestorChain w e focusChain)
    (fuel : Nat) (hp : pointChain.length < fuel) (hf : focusChain.length < fuel) :
    (handleMouseEvent fuel m w mouseType mouseEvent).completion =
      Completion.returned (some mouseEvent) ∧
    (handleKeyEvent fuel m w keyType keyEvent).completion =
      Completion.returned (some keyEvent) ∧
    (∀ k, (handleMouseEvent k m w mouseType mouseEvent).completion = Completion.running ∨
      (handleMouseEvent k m w mouseType mouseEvent).completion =
        Completion.returned (some mouseEvent)) ∧
    (∀ k, (handleKeyEvent k m w keyType keyEvent).completion = Completion.running ∨
      (handleKeyEvent k m w keyType keyEvent).completion =
        Completion.returned (some keyEvent)) ∧
    (m.isRecording = false ∨ m.stepCallback = none →
      ∀ k, (handleMouseEvent k m w mouseType mouseEvent).completion =
          Completion.returned (some mouseEvent) ∧
        (handleKeyEvent k m w keyType keyEvent).completion =
          Completion.returned (some keyEvent)) := by
  obtain ⟨td, htd, _⟩ := resolveTarget_of_chain w (getElementAtPoint w mouseEvent.location).1
    (RecordedStep.uninit w.uninit).targetDescriptor pointChain hpoint fuel hp
  obtain ⟨td', htd', _⟩ := resolveTarget_of_chain w (getFocusedElement w).1
    (RecordedStep.uninit w.uninit).targetDescriptor focusChain hfocus fuel hf
  exact ⟨handleMouseEvent_returns fuel m w mouseType mouseEvent td htd,
    handleKeyEvent_returns fuel m w keyType keyEvent td' htd',
    fun k => handleMouseEvent_completion k m w mouseType mouseEvent,
    fun k => handleKeyEvent_completion k m w keyType keyEvent,
    fun hidle k => by
      have h := handler_not_armed m hidle
      exact ⟨by simp [handleMouseEvent, h], by simp [handleKeyEvent, h]⟩⟩

/-- Witness for C1: a left button-down and a key-down on the button of the
three-level tree, while recording. -/
theorem handlers_return_the_given_event_witness :
    (handleMouseEvent 3 recordingMonitor treeWorld kCGEventLeftMouseDown
      eventAt100x200).completion = Completion.returned (some eventAt100x200) ∧
    (handleKeyEvent 3 recordingMonitor treeWorld kCGEventKeyDown
      keyEventA).completion = Completion.returned (some keyEventA) :=
  have h := handlers_return_the_given_event recordingMonitor treeWorld kCGEventLeftMouseDown
    kCGEventKeyDown eventAt100x200 keyEventA [2, 1] [2, 1]
    (fun e he => by
      rw [treeWorld_point] at he
      cases he
      exact treeWorld_chain)
    (fun e he => by
      rw [treeWorld_focused] at he
      cases he
      exact treeWorld_chain)
    3 (by decide) (by decide)
  ⟨h.1, h.2.1⟩

/-- C6 as stated fails: a left button-down at (100.5, 200.25) while recording
gives a step whose location is (100, 200), which is not the location of the
event. -/
theorem fractional_location_is_not_kept :
    (handleMouseEvent 1 recordingMonitor emptyWorld kCGEventLeftMouseDown
      eventAtHalfPixel).invoked.map (fun s => s.location) = [{ x := 100, y := 200 }] ∧
    ¬ eventAtHalfPixel.location.x.isInt 100 ∧ ¬ eventAtHalfPixel.location.y.isInt 200 := by
  obtain ⟨hrec, hcb, _⟩ := recordingMonitor_armed
  obtain ⟨td, htd, _⟩ := resolveTarget_of_chain emptyWorld
    (getElementAtPoint emptyWorld eventAtHalfPixel.location).1
    (RecordedStep.uninit emptyWorld.uninit).targetDescriptor []
    (fun e he => by simp [emptyWorld_point] at he) 1 (by decide)
  obtain ⟨step, _, hinv, _, _, _, _, _, hloc, _⟩ :=
    handleMouseEvent_step 1 recordingMonitor emptyWorld kCGEventLeftMouseDown eventAtHalfPixel
      td hrec hcb (Or.inl rfl) htd
  refine ⟨?_, by decide, by decide⟩
  rw [hinv, List.map_singleton, hloc]
  decide

/-- C6, amended. A left or right button-down or drag, handled while recording
with session id `s` and a callback bound, makes the handler invoke the callback
exactly once and return the event, once the ancestry walk of the element at
the point is over. The step has (action, button) = (click, left), (click,
right), (drag, left), (drag, right) for the four types, session id `s`, and as
location the coordinates of the event with their fractional part dropped: the
location of the event itself when that is a pair of integers. -/
theorem pointer_down_or_drag_gives_one_step (m : EventMonitor) (w : World)
    (type : CGEventType) (event : CGEvent) (chain : List AXUIElementRef)
    (hrec : m.isRecording = true) (hcb : m.stepCallback.isSome = true)
    (htype : type = kCGEventLeftMouseDown ∨ type = kCGEventRightMouseDown ∨
      type = kCGEventLeftMouseDragged ∨ type = kCGEventRightMouseDragged)
    (hch : ∀ e, (getElementAtPoint w event.location).1 = some e → IsAncestorChain w e chain)
    (fuel : Nat) (hfuel : chain.length < fuel) :
    ∃ step : RecordedStep,
      (handleMouseEvent fuel m w type event).completion = Completion.returned (some event) ∧
      (handleMouseEvent fuel m w type event).invoked = [step] ∧
      (type = kCGEventLeftMouseDown → step.action = "click" ∧ step.button = "left") ∧
      (type = kCGEventRightMouseDown → step.action = "click" ∧ step.button = "right") ∧
      (type = kCGEventLeftMouseDragged → step.action = "drag" ∧ step.button = "left") ∧
      (type = kCGEventRightMouseDragged → step.action = "drag" ∧ step.button = "right") ∧
      step.location = { x := event.location.x.toInt, y := event.location.y.toInt } ∧
      (∀ x y : Int, event.location.x.isInt x → event.location.y.isInt y →
        step.location = { x := x, y := y }) ∧
      step.sessionId = m.sessionId := by
  obtain ⟨td, htd, _⟩ := resolveTarget_of_chain w (getElementAtPoint w event.location).1
    (RecordedStep.uninit w.uninit).targetDescriptor chain hch fuel hfuel
  obtain ⟨step, hret, hinv, _, hsid, hact, hbut, _, hloc, _⟩ :=
    handleMouseEvent_step fuel m w type event td hrec hcb htype htd
  refine ⟨step, hret, hinv, ?_, ?_, ?_, ?_, hloc, ?_, hsid⟩
  · rintro rfl
    simp [hact, hbut]
  · rintro rfl
    simp [hact, hbut, kCGEventLeftMouseDown, kCGEventRightMouseDown,
      kCGEventLeftMouseDragged]
  · rintro rfl
    simp [hact, hbut, kCGEventLeftMouseDown, kCGEventRightMouseDown,
      kCGEventLeftMouseDragged]
  · rintro rfl
    simp [hact, hbut, kCGEventLeftMouseDown, kCGEventRightMouseDown,
      kCGEventLeftMouseDragged, kCGEventRightMouseDragged]
  · intro x y hx hy
    rw [hloc, CGFloat.toInt_of_isInt _ x hx, CGFloat.toInt_of_isInt _ y hy]

/-- Witness for C6: a left button-down at (100, 200) in session "s1", on the
button of the three-level tree. -/
theorem pointer_down_or_drag_gives_one_step_witness :
    ∃ step : RecordedStep,
      (handleMouseEvent 3 recordingMonitor treeWorld kCGEventLeftMouseDown
        eventAt100x200).invoked = [step] ∧
      step.action = "click" ∧ step.button = "left" ∧
      step.location = { x := 100, y := 200 } ∧ step.sessionId = "s1" := by
  obtain ⟨step, _, hinv, hleft, _, _, _, _, hloc, hsid⟩ :=
    pointer_down_or_drag_gives_one_step recordingMonitor treeWorld kCGEventLeftMouseDown
      eventAt100x200 [2, 1] recordingMonitor_armed.1 recordingMonitor_armed.2.1 (Or.inl rfl)
      (fun e he => by
        rw [treeWorld_point] at he
        cases he
        exact treeWorld_chain)
      3 (by decide)
  exact ⟨step, hinv, (hleft rfl).1, (hleft rfl).2, hloc 100 200 (by decide) (by decide),
    hsid.trans recordingMonitor_armed.2.2⟩

/-- C7. An event of a discarded type never reaches the callback: in every
monitor state, with any bound on the ancestry walk, a pointer event that is
not a left or right button-down or drag (so a button-up, a move, or any other
type) and a keyboard event that is not a key-down (so a key-up or a change of
modifier flags) make the handler invoke the callback zero times; a stream made
only of such events hands no step to the callback and leaves the queue of the
sink as it was. -/
theorem discarded_events_give_no_step (fuel : Nat) (m : EventMonitor) (ds : List Delivery)
    (h : ∀ d ∈ ds, d.discarded) :
    (∀ d ∈ ds, (deliver fuel m d).invoked = []) ∧
    deliverAll fuel m ds = [] ∧
    (∀ queue : List RecordedStep, pushAll queue (deliverAll fuel m ds) = queue) := by
  have hall := deliverAll_discarded fuel m ds h
  refine ⟨fun d hd => deliver_discarded fuel m d (h d hd), hall, fun queue => ?_⟩
  rw [hall]
  rfl

/-- Witness for C7: a button-up, a move, a key-up and a flags change while
recording on the three-level tree. -/
theorem discarded_events_give_no_step_witness :
    (∀ d ∈ discardedStream treeWorld eventAt100x200, d.discarded) ∧
    deliverAll 3 recordingMonitor (discardedStream treeWorld eventAt100x200) = [] :=
  have h : ∀ d ∈ discardedStream treeWorld eventAt100x200, d.discarded := by
    intro d hd
    simp only [discardedStream, List.mem_cons, List.mem_singleton, List.not_mem_nil,
      or_false] at hd
    rcases hd with rfl | rfl | rfl | rfl <;>
      simp [Delivery.discarded, discardedPointerType, kCGEventLeftMouseDown,
        kCGEventRightMouseDown, kCGEventLeftMouseUp, kCGEventMouseMoved,
        kCGEventLeftMouseDragged, kCGEventRightMouseDragged, kCGEventKeyDown, kCGEventKeyUp,
        kCGEventFlagsChanged]
  ⟨h, (discarded_events_give_no_step 3 recordingMonitor
    (discardedStream treeWorld eventAt100x200) h).2.1⟩

/-- C8. A key-down handled while recording with a callback bound makes the
handler invoke the callback exactly once and return the event, once the
ancestry walk of the focused element is over. The step has action "type"; its
text is the UTF-8 form of the characters of the key press, read through the
zero-copy pointer or else the buffer, and is empty when the key press has no
characters; each of shift, control, option, command is true exactly when the
bit of its mask is set in the flags of the event. -/
theorem key_down_gives_one_type_step (m : EventMonitor) (w : World) (event : CGEvent)
    (chain : List AXUIElementRef)
    (hrec : m.isRecording = true) (hcb : m.stepCallback.isSome = true)
    (hch : ∀ e, (getFocusedElement w).1 = some e → IsAncestorChain w e chain)
    (fuel : Nat) (hfuel : chain.length < fuel) :
    ∃ step : RecordedStep,
      (handleKeyEvent fuel m w kCGEventKeyDown event).completion =
        Completion.returned (some event) ∧
      (handleKeyEvent fuel m w kCGEventKeyDown event).invoked = [step] ∧
      step.action = "type" ∧
      step.text = keyText w event ∧
      (event.unicodeString = [] → step.text = "") ∧
      (∀ (d : CFStringData) (t : String), event.unicodeString ≠ [] →
        w.createWithCharacters event.unicodeString = some d →
        (d.cStringPtr = some t ∨ (d.cStringPtr = none ∧ d.getCString = some t)) →
        step.text = t) ∧
      (step.modifiers.shift = true ↔ event.flags &&& kCGEventFlagMaskShift ≠ 0) ∧
      (step.modifiers.control = true ↔ event.flags &&& kCGEventFlagMaskControl ≠ 0) ∧
      (step.modifiers.option = true ↔ event.flags &&& kCGEventFlagMaskAlternate ≠ 0) ∧
      (step.modifiers.command = true ↔ event.flags &&& kCGEventFlagMaskCommand ≠ 0) := by
  obtain ⟨td, htd, _⟩ := resolveTarget_of_chain w (getFocusedElement w).1
    (RecordedStep.uninit w.uninit).targetDescriptor chain hch fuel hfuel
  obtain ⟨step, hret, hinv, _, _, hact, _, htext, _, hmod, _⟩ :=
    handleKeyEvent_step fuel m w event td hrec hcb htd
  refine ⟨step, hret, hinv, hact, htext, ?_, ?_, ?_, ?_, ?_, ?_⟩
  · intro h
    rw [htext, keyText_of_no_characters w event h]
  · intro d t hlen hstr hdec
    rw [htext, keyText_of_decoded w event d t hlen hstr hdec]
  · rw [hmod]
    exact shift_mask_iff event.flags
  · rw [hmod]
    exact control_mask_iff event.flags
  · rw [hmod]
    exact alternate_mask_iff event.flags
  · rw [hmod]
    exact command_mask_iff event.flags

/-- Witness for C8: the key "a" with no modifier held, while recording, the
button of the three-level tree having the focus. -/
theorem key_down_gives_one_type_step_witness :
    ∃ step : RecordedStep,
      (handleKeyEvent 3 recordingMonitor treeWorld kCGEventKeyDown keyEventA).invoked = [step] ∧
      step.action = "type" ∧ step.text = "a" ∧
      step.modifiers.shift = false ∧ step.modifiers.control = false ∧
      step.modifiers.option = false ∧ step.modifiers.command = false := by
  obtain ⟨step, _, hinv, hact, _, _, htext, hs, hc, ho, hm⟩ :=
    key_down_gives_one_type_step recordingMonitor treeWorld keyEventA [2, 1]
      recordingMonitor_armed.1 recordingMonitor_armed.2.1
      (fun e he => by
        rw [treeWorld_focused] at he
        cases he
        exact treeWorld_chain)
      3 (by decide)
  refine ⟨step, hinv, hact, ?_, ?_, ?_, ?_, ?_⟩
  · exact htext { cStringPtr := some "a", getCString := some "a" } "a" (by decide)
      (by simp [treeWorld, emptyWorld, keyEventA]) (Or.inl rfl)
  · simpa [keyEventA] using hs
  · simpa [keyEventA] using hc
  · simpa [keyEventA] using ho
  · simpa [keyEventA] using hm

/-- C9 (the code departs from the claim). A left button-down with the shift key
held, handled while recording, gives a click step whose four modifier flags
are all false although the shift bit is set in the flags of the event:
`handleMouseEvent` never reads the flags. -/
theorem shift_click_step_has_shift_false :
    (handleMouseEvent 1 recordingMonitor emptyWorld kCGEventLeftMouseDown
      shiftEventAt100x200).invoked.map (fun s => (s.action, s.modifiers)) =
        [("click", { shift := false, control := false, option := false, command := false })] ∧
    shiftEventAt100x200.flags &&& kCGEventFlagMaskShift ≠ 0 := by
  obtain ⟨hrec, hcb, _⟩ := recordingMonitor_armed
  obtain ⟨td, htd, _⟩ := resolveTarget_of_chain emptyWorld
    (getElementAtPoint emptyWorld shiftEventAt100x200.location).1
    (RecordedStep.uninit emptyWorld.uninit).targetDescriptor []
    (fun e he => by simp [emptyWorld_point] at he) 1 (by decide)
  obtain ⟨step, _, hinv, _, _, hact, _, _, _, hmod, _⟩ :=
    handleMouseEvent_step 1 recordingMonitor emptyWorld kCGEventLeftMouseDown
      shiftEventAt100x200 td hrec hcb (Or.inl rfl) htd
  refine ⟨?_, by decide⟩
  rw [hinv, List.map_singleton, hact, hmod]
  simp

/-- C10. For an element `e` whose ancestors, nearest first, are `chain` and end
at a node without parent, `getAncestryPath` returns, after more rounds than the
chain is long, exactly the path components of the nodes from the root down to
`e`: one string per node, the root first, the component of `e` itself last,
each component being `pathOf` of its node. -/
theorem getAncestryPath_is_root_to_leaf (w : World) (e : AXUIElementRef)
    (chain : List AXUIElementRef) (hch : IsAncestorChain w e chain)
    (fuel : Nat) (hfuel : chain.length < fuel) :
    ∃ path : List String,
      ((AXElementInfo.setElement AXElementInfo.new (some e)).getAncestryPath fuel w).1 =
        some path ∧
      path = (chain.reverse ++ [e]).map (pathOf w) ∧
      path.length = chain.length + 1 ∧
      path.getLast? = some (pathOf w e) ∧
      path.head? = some (pathOf w (chain.getLast?.getD e)) := by
  refine ⟨_, getAncestryPath_of_chain w e chain fuel hch hfuel, rfl, by simp, by simp, ?_⟩
  induction chain using List.reverseRecOn with
  | nil => simp
  | append_singleton cs c _ => simp

/-- Witness for C10: the tree application ← window ← button; the ancestry of
the button is the components of the application, the window and the button. -/
theorem getAncestryPath_is_root_to_leaf_witness :
    ((AXElementInfo.setElement AXElementInfo.new (some 3)).getAncestryPath 3 treeWorld).1 =
      some [pathOf treeWorld 1, pathOf treeWorld 2, pathOf treeWorld 3] ∧
    [pathOf treeWorld 1, pathOf treeWorld 2, pathOf treeWorld 3] =
      ["AXApplication[title=\"Editor\"]", "AXWindow[title=\"Untitled\"][id=\"main\"]",
       "AXButton[id=\"ok\"]"] := by
  obtain ⟨path, hpath, heq, _⟩ :=
    getAncestryPath_is_root_to_leaf treeWorld 3 [2, 1] treeWorld_chain 3 (by decide)
  refine ⟨?_, ?_⟩
  · rw [hpath, heq]
    rfl
  · rw [treeWorld_pathOf.1, treeWorld_pathOf.2.1, treeWorld_pathOf.2.2]

/-! ## Null element, resolution miss, idle handlers: claims -/

/-- C11. An `AXElementInfo` whose element is null describes without failing and
without asking the accessibility service: `getStringAttribute` returns the
empty string for every attribute, `getAncestryPath` returns the empty sequence
(whatever the bound on the walk), `getFrame` returns the rectangle whose four
coordinates are zero, and none of them makes a query; the static
`getStringAttributeForElement` does the same on a null element. -/
theorem null_element_gives_empty_description (w : World) (attr : AXAttribute) (fuel : Nat) :
    AXElementInfo.getStringAttribute { element := none } w attr = ("", []) ∧
    AXElementInfo.getAncestryPath { element := none } fuel w = (some [], []) ∧
    AXElementInfo.getFrame { element := none } w = (CGRectZero, []) ∧
    (CGRectZero.origin.x.toInt = 0 ∧ CGRectZero.origin.y.toInt = 0 ∧
      CGRectZero.size.width.toInt = 0 ∧ CGRectZero.size.height.toInt = 0) ∧
    getStringAttributeForElement w none attr = ("", []) ∧
    AXElementInfo.new.element = none ∧
    (AXElementInfo.setElement AXElementInfo.new none).element = none := by
  refine ⟨rfl, rfl, rfl, ⟨by decide, by decide, by decide, by decide⟩, rfl, rfl, rfl⟩

/-- C13 (the code departs from the claim). A left button-down with no element
under the pointer and a key-down with no focused element, handled while
recording, are each handed to the callback once with role, title, identifier
and value empty and the ancestry empty, but the frame of the step is whatever
the memory of the fresh `RecordedStep` held, here (1, 2, 3, 4): `Frame` has no
member initialisers and the handlers assign the frame only inside
`if (element)` and `if (focusedElement)`. -/
theorem resolution_miss_leaves_frame_unset :
    (getElementAtPoint staleMemoryWorld eventAt100x200.location).1 = none ∧
    (handleMouseEvent 1 recordingMonitor staleMemoryWorld kCGEventLeftMouseDown
      eventAt100x200).invoked.map (fun s => s.targetDescriptor) =
      [{ role := "", title := "", identifier := "", value := "",
         frame := { x := 1, y := 2, width := 3, height := 4 }, ancestry := [] }] ∧
    (getFocusedElement staleMemoryWorld).1 = none ∧
    (handleKeyEvent 1 recordingMonitor staleMemoryWorld kCGEventKeyDown
      keyEventA).invoked.map (fun s => s.targetDescriptor) =
      [{ role := "", title := "", identifier := "", value := "",
         frame := { x := 1, y := 2, width := 3, height := 4 }, ancestry := [] }] := by
  decide

/-- C14. A monitor that is not recording, or has no callback bound, drops every
event before any resolution work: for every event type, event and world, and
whatever the bound on the ancestry walk, both handlers return the event, invoke
nothing, and make no read of the accessibility service or of the front
process. -/
theorem idle_handlers_make_no_query (m : EventMonitor)
    (h : m.isRecording = false ∨ m.stepCallback = none)
    (fuel : Nat) (w : World) (type : CGEventType) (event : CGEvent) :
    (handleMouseEvent fuel m w type event).queries = [] ∧
    (handleMouseEvent fuel m w type event).invoked = [] ∧
    (handleMouseEvent fuel m w type event).completion = Completion.returned (some event) ∧
    (handleKeyEvent fuel m w type event).queries = [] ∧
    (handleKeyEvent fuel m w type event).invoked = [] ∧
    (handleKeyEvent fuel m w type event).completion = Completion.returned (some event) := by
  rw [handleMouseEvent_not_armed fuel m w type event h,
    handleKeyEvent_not_armed fuel m w type event h]
  exact ⟨rfl, rfl, rfl, rfl, rfl, rfl⟩

/-- Witness for C14: a recording monitor without callback, a left button-down on
the button of the three-level tree. -/
theorem idle_handlers_make_no_query_witness :
    (activeMonitor.isRecording = false ∨ activeMonitor.stepCallback = none) ∧
    activeMonitor.isRecording = true ∧
    (handleMouseEvent 3 activeMonitor treeWorld kCGEventLeftMouseDown
      eventAt100x200).queries = [] ∧
    (handleKeyEvent 3 activeMonitor treeWorld kCGEventKeyDown keyEventA).queries = [] :=
  have hcb : activeMonitor.stepCallback = none := by
    simp [activeMonitor, startRecording, EventMonitor.new, osGranted]
  have hrec : activeMonitor.isRecording = true := by
    simp [activeMonitor, startRecording, EventMonitor.new, osGranted]
  ⟨Or.inr hcb, hrec,
    (idle_handlers_make_no_query activeMonitor (Or.inr hcb) 3 treeWorld
      kCGEventLeftMouseDown eventAt100x200).1,
    (idle_handlers_make_no_query activeMonitor (Or.inr hcb) 3 treeWorld
      kCGEventKeyDown keyEventA).2.2.2.1⟩

/-! ## Step sink and sessions: claims -/

/-- C12. The step sink behaves as a list. After any sequence of pushes,
snapshots and clears on the queue of a new recorder, `GetRecordedSteps` returns
the array of the steps pushed since the last clear, in push order, each
converted by `RecordedStepToJS`; a snapshot leaves the queue as it was, so a
second snapshot right after returns the same array and a snapshot in the
sequence does not change what later snapshots return; a snapshot right after
`ClearSteps` is the empty array whatever was queued before. -/
theorem sink_snapshot_is_pushes_since_clear (ops : List SinkOp) (queue : List RecordedStep) :
    (GetRecordedSteps (runSink [] ops)).1 =
      JSValue.array ((pushedSinceClear ops).map RecordedStepToJS) ∧
    (GetRecordedSteps queue).2 = queue ∧
    (GetRecordedSteps (GetRecordedSteps queue).2).1 = (GetRecordedSteps queue).1 ∧
    runSink [] (ops ++ [SinkOp.snapshot]) = runSink [] ops ∧
    (GetRecordedSteps (ClearSteps queue).2).1 = JSValue.array [] ∧
    (ClearSteps queue).2 = [] := by
  refine ⟨?_, rfl, rfl, ?_, ?_, rfl⟩
  · rw [GetRecordedSteps_eq, runSink_eq_pushedSinceClear]
  · rw [runSink_snoc]
    rfl
  · simp [GetRecordedSteps_eq, ClearSteps]

/-- C15. In every interleaving of `startRecording` (accepted, rejected because
the monitor records, or failing at registration), `stopRecording`, callback
binding and event deliveries, begun at an idle monitor, every step handed to
the callback carries as session id the argument of the most recent
`startRecording` that returned `true`; and a start that returns `false` can be
removed from the interleaving without changing any emitted step. -/
theorem emitted_steps_carry_accepted_session (m0 : EventMonitor)
    (hidle : m0.isRecording = false) (actions : List Action) :
    (∀ p ∈ (runActions (Session.begin m0) actions).emitted, p.2 = some p.1.sessionId) ∧
    (∀ (pre post : List Action) (sid : String) (os : TapOS),
      actions = pre ++ Action.start sid os :: post →
      (startRecording (runActions (Session.begin m0) pre).monitor sid os).ok = false →
      (runActions (Session.begin m0) actions).emitted =
        (runActions (Session.begin m0) (pre ++ post)).emitted) := by
  refine ⟨?_, ?_⟩
  · refine (runActions_keeps actions (Session.begin m0) ?_ ?_).2
    · intro h
      simp [Session.begin, hidle] at h
    · intro p hp
      simp [Session.begin] at hp
  · intro pre post sid os hact hok
    rw [hact]
    exact runActions_skip_refused_start (Session.begin m0) pre post sid os hok

/-- Witness for C15: the sample interleaving from the constructor state. Its
three emitted steps carry "s1", "s1" and "s3"; striking the rejected start
"s2" leaves the emitted steps as they are. -/
theorem emitted_steps_carry_accepted_session_witness :
    EventMonitor.new.isRecording = false ∧
    (∀ p ∈ (runActions (Session.begin EventMonitor.new) sampleActions).emitted,
      p.2 = some p.1.sessionId) ∧
    (runActions (Session.begin EventMonitor.new) sampleActions).emitted.map
      (fun p => (p.1.sessionId, p.1.action, p.2)) =
      [("s1", "click", some "s1"), ("s1", "click", some "s1"), ("s3", "type", some "s3")] ∧
    (runActions (Session.begin EventMonitor.new) sampleActions).emitted =
      (runActions (Session.begin EventMonitor.new)
        (sampleActions.take 3 ++ sampleActions.drop 4)).emitted :=
  have h := emitted_steps_carry_accepted_session EventMonitor.new rfl sampleActions
  ⟨rfl, h.1, by decide,
    h.2 (sampleActions.take 3) (sampleActions.drop 4) "s2" osGranted rfl (by decide)⟩

end Recorder
